import Mathlib

/-! tutorial.cpp: bootstrap, frame loop and shutdown of the single-triangle renderer.

The program is one function, `main`, that talks to GLFW, GLEW and OpenGL.  It is
embedded as the sequence of library calls it issues, each call recorded with its
arguments and (where the library returns something) its result.  Everything the
libraries decide (returned handles, the attribute location, the successive values
of the close flag) is an input, collected in `Env`.  `main` describes the runs
in which every call returns; `execute` adds the run that is killed at line 51
because GLEW did not load the OpenGL entry points.

The effect of the calls on the library state (binding points, buffer stores,
shader and program objects, the two colour buffers) is given by `glStep`, which
follows the OpenGL 3.3 core and GLFW 3 documentation for the entry points
concerned.
-/

namespace Tutorial

/-! ## Vocabulary -/

/-- Named constants of `<GL/glew.h>` and `<GLFW/glfw3.h>` that `main` passes.
They are kept symbolic: no numeric value of a header is assumed. -/
inductive HeaderConst
  | GLFW_CONTEXT_VERSION_MAJOR
  | GLFW_CONTEXT_VERSION_MINOR
  | GLFW_OPENGL_PROFILE
  | GLFW_OPENGL_FORWARD_COMPAT
  | GLFW_RESIZABLE
  | GLFW_OPENGL_CORE_PROFILE
  | GL_TRUE
  | GL_FALSE
  | GL_ARRAY_BUFFER
  | GL_STATIC_DRAW
  | GL_VERTEX_SHADER
  | GL_FRAGMENT_SHADER
  | GL_FLOAT
  | GL_TRIANGLES
  | GL_COLOR_BUFFER_BIT
  deriving DecidableEq, Repr

open HeaderConst

/-- Second argument of `glfwWindowHint`: an integer literal or a header constant. -/
inductive HintValue
  | lit (n : Int)
  | const (c : HeaderConst)
  deriving DecidableEq, Repr

/-- Library entry points, with arguments and observed results.  Pointers are
addresses (`0` is `nullptr` / `NULL`), `GLuint` values are naturals below `2 ^ 32`,
`GLint`/`GLsizei`/`int` values are integers, `float` data is kept exact in `ℚ`.
`glewExperimental_set` is the assignment to the GLEW global of line 44, recorded
in the trace at its place among the calls.

The first block is what `main` issues (lines 29 to 119).  The second block holds
further entry points of the same libraries that `main` does not issue; they are
here so that "never issued" and "never rewritten" are statements about traces. -/
inductive Call
  | glfwInit (ret : Bool)
  | glfwWindowHint (hint : HeaderConst) (value : HintValue)
  | glfwCreateWindow (width height : Int) (title : String) (monitor share : Nat) (ret : Nat)
  | glfwMakeContextCurrent (window : Nat)
  | glewExperimental_set (value : HeaderConst)
  | glewInit (ret : Bool)
  | glGenVertexArrays (n : Int) (arrays : Nat)
  | glBindVertexArray (array : Nat)
  | glGenBuffers (n : Int) (buffers : Nat)
  | glBindBuffer (target : HeaderConst) (buffer : Nat)
  | glBufferData (target : HeaderConst) (size : Int) (data : List ℚ) (usage : HeaderConst)
  | glCreateShader (type : HeaderConst) (ret : Nat)
  | glShaderSource (shader : Nat) (count : Int) (string : String) (length : Nat)
  | glCompileShader (shader : Nat)
  | glCreateProgram (ret : Nat)
  | glAttachShader (program shader : Nat)
  | glLinkProgram (program : Nat)
  | glUseProgram (program : Nat)
  | glGetAttribLocation (program : Nat) (name : String) (ret : Int)
  | glEnableVertexAttribArray (index : Nat)
  | glVertexAttribPointer (index : Nat) (size : Int) (type normalized : HeaderConst)
      (stride : Int) (pointer : Nat)
  | glfwWindowShouldClose (window : Nat) (ret : Bool)
  | glDrawArrays (mode : HeaderConst) (first count : Int)
  | glfwSwapBuffers (window : Nat)
  | glfwPollEvents
  | glfwTerminate
  -- entry points that `main` does not issue
  | glfwDefaultWindowHints
  | glfwDestroyWindow (window : Nat)
  | glDeleteBuffers (buffer : Nat)
  | glDeleteVertexArrays (array : Nat)
  | glDeleteShader (shader : Nat)
  | glDeleteProgram (program : Nat)
  | glBufferSubData (target : HeaderConst) (offset : Int) (data : List ℚ)
  | glClear (mask : HeaderConst)
  | glGetShaderiv (shader : Nat)
  | glGetProgramiv (program : Nat)
  | glGetShaderInfoLog (shader : Nat)
  | glGetProgramInfoLog (program : Nat)
  | glGetError
  deriving DecidableEq

open Call

/-! ## The program -/

/-- Line 10: `vertexSource`. -/
def vertexSource : String :=
  "#version 150 core\nin vec2 position;void main() \x7b   gl_Position = vec4(position, 0.0, 1.0);\x7d"

/-- Line 18: `fragmentSource`. -/
def fragmentSource : String :=
  "#version 150 core\nout vec4 outColor;void main() \x7b   outColor = vec4(1.0, 1.0, 1.0, 1.0);\x7d"

/-- Line 59: `float vertices[]`.  The six literals are exactly representable in
binary floating point (0, 1/2, -1/2), so keeping them in `ℚ` loses nothing. -/
def vertices : List ℚ := [0, 1/2, 1/2, -1/2, -1/2, -1/2]

/-- Size of a `float` in bytes on the platforms the program targets. -/
def sizeofFloat : Nat := 4

/-- Line 67: `sizeof(vertices)`, the array length times the element size. -/
def sizeofVertices : Nat := vertices.length * sizeofFloat

/-- Implicit conversion of a `GLint` to the `GLuint` parameter of
`glEnableVertexAttribArray` and `glVertexAttribPointer` (lines 97 and 105). -/
def toGLuint (i : Int) : Nat := (i % 2 ^ 32).toNat

/-- What the libraries hand back to `main`. -/
structure Env where
  /-- whether `glfwInit` returned `GLFW_TRUE` -/
  glfwInitOk : Bool
  /-- result of `glfwCreateWindow`; `0` is the null pointer -/
  window : Nat
  /-- whether `glewInit` returned `GLEW_OK` -/
  glewInitOk : Bool
  /-- value of `vao` after `glGenVertexArrays` -/
  vao : Nat
  /-- value of `vbo` after `glGenBuffers` -/
  vbo : Nat
  /-- result of `glCreateShader(GL_VERTEX_SHADER)` -/
  vertexShader : Nat
  /-- result of `glCreateShader(GL_FRAGMENT_SHADER)` -/
  fragmentShader : Nat
  /-- result of `glCreateProgram` -/
  shaderProgram : Nat
  /-- result of `glGetAttribLocation` -/
  posAttrib : Int
  /-- `shouldClose k` tells whether the `k`-th call of `glfwWindowShouldClose`
  (counting from 0) returned non-zero -/
  shouldClose : Nat → Bool

/-- Lines 29 to 105, one entry per statement that reaches a library. -/
def bootstrap (e : Env) : List Call :=
  [ glfwInit e.glfwInitOk,
    glfwWindowHint GLFW_CONTEXT_VERSION_MAJOR (.lit 3),
    glfwWindowHint GLFW_CONTEXT_VERSION_MINOR (.lit 3),
    glfwWindowHint GLFW_OPENGL_PROFILE (.const GLFW_OPENGL_CORE_PROFILE),
    glfwWindowHint GLFW_OPENGL_FORWARD_COMPAT (.const GL_TRUE),
    glfwWindowHint GLFW_RESIZABLE (.const GL_FALSE),
    glfwCreateWindow 800 600 "OpenGL" 0 0 e.window,
    glfwMakeContextCurrent e.window,
    glewExperimental_set GL_TRUE,
    glewInit e.glewInitOk,
    glGenVertexArrays 1 e.vao,
    glBindVertexArray e.vao,
    glGenBuffers 1 e.vbo,
    glBindBuffer GL_ARRAY_BUFFER e.vbo,
    glBufferData GL_ARRAY_BUFFER sizeofVertices vertices GL_STATIC_DRAW,
    glCreateShader GL_VERTEX_SHADER e.vertexShader,
    glShaderSource e.vertexShader 1 vertexSource 0,
    glCompileShader e.vertexShader,
    glCreateShader GL_FRAGMENT_SHADER e.fragmentShader,
    glShaderSource e.fragmentShader 1 fragmentSource 0,
    glCompileShader e.fragmentShader,
    glCreateProgram e.shaderProgram,
    glAttachShader e.shaderProgram e.vertexShader,
    glAttachShader e.shaderProgram e.fragmentShader,
    glLinkProgram e.shaderProgram,
    glUseProgram e.shaderProgram,
    glGetAttribLocation e.shaderProgram "position" e.posAttrib,
    glEnableVertexAttribArray (toGLuint e.posAttrib),
    glVertexAttribPointer (toGLuint e.posAttrib) 2 GL_FLOAT GL_FALSE 0 0 ]

/-- Lines 112 to 116: the body of the `while` loop. -/
def frameBody (window : Nat) : List Call :=
  [glDrawArrays GL_TRIANGLES 0 3, glfwSwapBuffers window, glfwPollEvents]

/-- Lines 108 to 117: `while(!glfwWindowShouldClose(window)) { ... }`.  `k` counts
the close-flag readings made so far.  The second component tells whether the
loop was left; with `fuel` exhausted it is `false` and the calls issued so far
are returned. -/
def frameLoop (window : Nat) (shouldClose : Nat → Bool) : Nat → Nat → List Call × Bool
  | 0, _ => ([], false)
  | fuel + 1, k =>
    if shouldClose k then ([glfwWindowShouldClose window true], true)
    else
      let rest := frameLoop window shouldClose fuel (k + 1)
      (glfwWindowShouldClose window false :: (frameBody window ++ rest.1), rest.2)

/-- What is observed of a run: the calls issued, and the exit code once `main`
has returned. -/
structure Outcome where
  trace : List Call
  exitCode : Option Int

/-- Lines 25 to 120, for runs in which every call returns to `main` (`execute`
below adds the runs in which one does not).  `fuel` bounds the number of
close-flag readings that are followed: a run that has left the loop within the
bound has called `glfwTerminate` and returned; otherwise `exitCode` is `none` and
`trace` holds the calls issued so far.  `main` has no `return`; falling off its
end returns 0. -/
def main (e : Env) (fuel : Nat) : Outcome :=
  let loop := frameLoop e.window e.shouldClose fuel 0
  if loop.2 then
    { trace := bootstrap e ++ loop.1 ++ [glfwTerminate], exitCode := some 0 }
  else
    { trace := bootstrap e ++ loop.1, exitCode := none }

/-- Colour `(r, g, b, a)`. -/
abbrev Color := ℚ × ℚ × ℚ × ℚ

/-- Window coordinates of a pixel: column and row, from the lower left corner. -/
abbrev Pixel := Nat × Nat

/-- Homogeneous clip coordinates `(x, y, z, w)`. -/
abbrev Vec4 := ℚ × ℚ × ℚ × ℚ

/-- One generic vertex attribute array as described by `glVertexAttribPointer`,
together with the buffer that was bound to `GL_ARRAY_BUFFER` at that call. -/
structure AttribPointer where
  size : Int
  type : HeaderConst
  normalized : HeaderConst
  stride : Int
  offset : Nat
  buffer : Nat
  deriving DecidableEq

/-- Replace the value of a table at one key. -/
def upd {α β : Type} [DecidableEq α] (f : α → β) (k : α) (v : β) : α → β :=
  fun x => if x = k then v else f x

structure GLState where
  /-- GLFW is initialised -/
  initialised : Bool
  /-- window hints set since initialisation; `none` is the library default -/
  hints : HeaderConst → Option HintValue
  /-- size of each window that exists -/
  windowSize : Nat → Option (Int × Int)
  /-- hints each existing window was created with -/
  windowHints : Nat → HeaderConst → Option HintValue
  /-- window whose context is current; `0` when none is -/
  context : Nat
  /-- value of `glewExperimental` -/
  glewExperimental : HeaderConst
  /-- bound vertex array object -/
  vertexArray : Nat
  /-- buffer bound to `GL_ARRAY_BUFFER` -/
  arrayBuffer : Nat
  /-- program in use -/
  program : Nat
  /-- vertex array objects that exist -/
  arrays : Nat → Bool
  /-- data store of each buffer object: its floats -/
  store : Nat → Option (List ℚ)
  /-- usage hint of each data store -/
  usage : Nat → Option HeaderConst
  /-- enabled attribute arrays, by vertex array object and attribute index -/
  enabled : Nat × Nat → Bool
  /-- attribute array descriptions, by vertex array object and attribute index -/
  pointer : Nat × Nat → Option AttribPointer
  /-- type of each shader object that exists -/
  shaderType : Nat → Option HeaderConst
  /-- source text of each shader object -/
  shaderText : Nat → Option String
  /-- text that each shader object was last compiled from -/
  compiled : Nat → Option String
  /-- shaders attached to each program object that exists -/
  attached : Nat → Option (List Nat)
  /-- vertex and fragment text each program was last linked from -/
  linked : Nat → Option (String × String)
  /-- location of the input `position` in each program, as last reported by
  `glGetAttribLocation` -/
  location : Nat → Option Int
  /-- colour buffer that draw calls write -/
  back : Pixel → Color
  /-- colour buffer on display -/
  front : Pixel → Color

/-- State before `main` starts; `front0` and `back0` are the undefined initial
contents of the colour buffers. -/
def GLState.initial (front0 back0 : Pixel → Color) : GLState :=
  { initialised := false
    hints := fun _ => none
    windowSize := fun _ => none
    windowHints := fun _ _ => none
    context := 0
    glewExperimental := GL_FALSE
    vertexArray := 0
    arrayBuffer := 0
    program := 0
    arrays := fun _ => false
    store := fun _ => none
    usage := fun _ => none
    enabled := fun _ => false
    pointer := fun _ => none
    shaderType := fun _ => none
    shaderText := fun _ => none
    compiled := fun _ => none
    attached := fun _ => none
    linked := fun _ => none
    location := fun _ => none
    back := back0
    front := front0 }

/-! ### Shader stages -/

/-- Lines 12 to 15, the body of `vertexSource`:
`gl_Position = vec4(position, 0.0, 1.0);`. -/
def vertexMain (position : ℚ × ℚ) : Vec4 := (position.1, position.2, 0, 1)

/-- Lines 20 to 23, the body of `fragmentSource`:
`outColor = vec4(1.0, 1.0, 1.0, 1.0);`. -/
def fragmentMain : Color := (1, 1, 1, 1)

/-- Meaning of a vertex shader text.  Only the text of this program is known. -/
def vertexStage (text : String) : Option (ℚ × ℚ → Vec4) :=
  if text = vertexSource then some vertexMain else none

/-- Meaning of a fragment shader text.  Only the text of this program is known. -/
def fragmentStage (text : String) : Option Color :=
  if text = fragmentSource then some fragmentMain else none

/-! ### Vertex fetch -/

/-- Distance in bytes between consecutive elements of an attribute array: the
given stride, or for stride 0 the size of one tightly packed element. -/
def effectiveStride (ap : AttribPointer) : Nat :=
  if ap.stride = 0 then ap.size.toNat * sizeofFloat else ap.stride.toNat

/-- First byte of the element for vertex `i`. -/
def elementOffset (ap : AttribPointer) (i : Nat) : Nat :=
  ap.offset + i * effectiveStride ap

/-- One past the last byte of the element for vertex `i`. -/
def elementEnd (ap : AttribPointer) (i : Nat) : Nat :=
  elementOffset ap i + ap.size.toNat * sizeofFloat

/-- The `vec2` input read for vertex `i` from a data store of floats: `size`
consecutive floats starting at `elementOffset`, all of which must lie inside the
store; a component beyond `size` reads as 0. -/
def fetch (ap : AttribPointer) (data : List ℚ) (i : Nat) : Option (ℚ × ℚ) :=
  if ap.type = GL_FLOAT ∧ 1 ≤ ap.size ∧ ap.size ≤ 4 ∧ elementOffset ap i % sizeofFloat = 0
      ∧ elementEnd ap i ≤ data.length * sizeofFloat then
    let slot := elementOffset ap i / sizeofFloat
    some (data.getD slot 0, if 2 ≤ ap.size then data.getD (slot + 1) 0 else 0)
  else none

/-! ### Rasterisation -/

/-- Normalised device coordinates of a clip-space position inside the depth range. -/
def ndc (v : Vec4) : Option (ℚ × ℚ) :=
  if 0 < v.2.2.2 ∧ -v.2.2.2 ≤ v.2.2.1 ∧ v.2.2.1 ≤ v.2.2.2 then
    some (v.1 / v.2.2.2, v.2.1 / v.2.2.2)
  else none

/-- Twice the signed area of the triangle `a b p`. -/
def edge (a b p : ℚ × ℚ) : ℚ :=
  (b.1 - a.1) * (p.2 - a.2) - (b.2 - a.2) * (p.1 - a.1)

/-- The point `p` lies strictly inside the triangle `a b c`, whatever its winding
(face culling is off unless enabled, and the program never enables it). -/
def inside (a b c p : ℚ × ℚ) : Bool :=
  (decide (0 < edge a b p) && decide (0 < edge b c p) && decide (0 < edge c a p))
  || (decide (edge a b p < 0) && decide (edge b c p < 0) && decide (edge c a p < 0))

/-- Centre of a pixel in normalised device coordinates, for a viewport that
covers a window of the given size. -/
def pixelCentre (size : Int × Int) (p : Pixel) : ℚ × ℚ :=
  ((2 * (p.1 : ℚ) + 1) / (size.1 : ℚ) - 1, (2 * (p.2 : ℚ) + 1) / (size.2 : ℚ) - 1)

/-- The pixel belongs to a window of the given size and the triangle with
clip-space corners `a b c` covers its centre. -/
def covers (size : Int × Int) (a b c : Vec4) (p : Pixel) : Bool :=
  match ndc a, ndc b, ndc c with
  | some a, some b, some c =>
    decide ((p.1 : Int) < size.1) && decide ((p.2 : Int) < size.2)
      && inside a b c (pixelCentre size p)
  | _, _, _ => false

/-- Clip-space corners of the independent triangles that
`glDrawArrays(GL_TRIANGLES, first, count)` assembles: vertices `first + 3 t`,
`first + 3 t + 1`, `first + 3 t + 2` for each complete triple. -/
def assemble (vs : ℚ × ℚ → Vec4) (ap : AttribPointer) (data : List ℚ) (first : Nat) :
    Nat → List (Vec4 × Vec4 × Vec4)
  | 0 => []
  | t + 1 =>
    match fetch ap data (first + 3 * t), fetch ap data (first + 3 * t + 1),
        fetch ap data (first + 3 * t + 2) with
    | some a, some b, some c => assemble vs ap data first t ++ [(vs a, vs b, vs c)]
    | _, _, _ => assemble vs ap data first t

/-- What a draw call has to find in the state to produce fragments: a current
context with its window, a linked program in use whose two stages are known, the
location of `position`, and at that location of the bound vertex array an enabled
attribute array over a buffer with a data store. -/
def drawInputs (s : GLState) :
    Option ((Int × Int) × (ℚ × ℚ → Vec4) × Color × AttribPointer × List ℚ) :=
  match s.windowSize s.context, s.linked s.program, s.location s.program with
  | some size, some (vtext, ftext), some loc =>
    match vertexStage vtext, fragmentStage ftext, s.pointer (s.vertexArray, toGLuint loc) with
    | some vs, some fs, some ap =>
      match s.store ap.buffer with
      | some data =>
        if s.context ≠ 0 ∧ s.program ≠ 0 ∧ 0 ≤ loc ∧ s.enabled (s.vertexArray, toGLuint loc) then
          some (size, vs, fs, ap, data)
        else none
      | none => none
    | _, _, _ => none
  | _, _, _ => none

/-- Back buffer after `glDrawArrays mode first count`. -/
def drawArrays (s : GLState) (mode : HeaderConst) (first count : Int) : Pixel → Color :=
  match drawInputs s with
  | some (size, vs, fs, ap, data) =>
    if mode = GL_TRIANGLES ∧ 0 ≤ first ∧ 0 ≤ count then
      let tris := assemble vs ap data first.toNat (count.toNat / 3)
      fun p => if tris.any (fun t => covers size t.1 t.2.1 t.2.2 p) then fs else s.back p
    else s.back
  | none => s.back

/-- Vertex and fragment text a program links from: the compiled text of the
first attached shader of each type. -/
def linkTexts (s : GLState) (shaders : List Nat) : Option (String × String) :=
  match shaders.find? (fun n => s.shaderType n = some GL_VERTEX_SHADER),
      shaders.find? (fun n => s.shaderType n = some GL_FRAGMENT_SHADER) with
  | some v, some f =>
    match s.compiled v, s.compiled f with
    | some vt, some ft => some (vt, ft)
    | _, _ => none
  | _, _ => none

/-- Overwrite part of a data store, starting at a byte offset. -/
def overwrite (old : List ℚ) (offset : Nat) (data : List ℚ) : List ℚ :=
  old.take (offset / sizeofFloat) ++ data ++ old.drop (offset / sizeofFloat + data.length)

/-- Effect of one call on the library state. -/
def glStep (s : GLState) : Call → GLState
  | glfwInit ret => if ret then { s with initialised := true, hints := fun _ => none } else s
  | glfwWindowHint hint value =>
    if s.initialised then { s with hints := upd s.hints hint (some value) } else s
  | glfwDefaultWindowHints => { s with hints := fun _ => none }
  | glfwCreateWindow width height _ _ _ ret =>
    if ret ≠ 0 then
      { s with windowSize := upd s.windowSize ret (some (width, height))
               windowHints := upd s.windowHints ret s.hints }
    else s
  | glfwMakeContextCurrent window => { s with context := window }
  | glewExperimental_set value => { s with glewExperimental := value }
  | glewInit _ => s
  | glGenVertexArrays _ arrays => if arrays ≠ 0 then { s with arrays := upd s.arrays arrays true } else s
  | glBindVertexArray array => { s with vertexArray := array }
  | glGenBuffers _ _ => s
  | glBindBuffer target buffer =>
    if target = GL_ARRAY_BUFFER then { s with arrayBuffer := buffer } else s
  | glBufferData target _ data usage =>
    if target = GL_ARRAY_BUFFER ∧ s.arrayBuffer ≠ 0 then
      { s with store := upd s.store s.arrayBuffer (some data)
               usage := upd s.usage s.arrayBuffer (some usage) }
    else s
  | glBufferSubData target offset data =>
    match s.store s.arrayBuffer with
    | some old =>
      if target = GL_ARRAY_BUFFER ∧ s.arrayBuffer ≠ 0 ∧ 0 ≤ offset then
        { s with store := upd s.store s.arrayBuffer (some (overwrite old offset.toNat data)) }
      else s
    | none => s
  | glCreateShader type ret =>
    if ret ≠ 0 then
      { s with shaderType := upd s.shaderType ret (some type)
               shaderText := upd s.shaderText ret none
               compiled := upd s.compiled ret none }
    else s
  | glShaderSource shader _ string _ =>
    if (s.shaderType shader).isSome then
      { s with shaderText := upd s.shaderText shader (some string) }
    else s
  | glCompileShader shader =>
    if (s.shaderType shader).isSome then
      { s with compiled := upd s.compiled shader (s.shaderText shader) }
    else s
  | glCreateProgram ret =>
    if ret ≠ 0 then
      { s with attached := upd s.attached ret (some [])
               linked := upd s.linked ret none
               location := upd s.location ret none }
    else s
  | glAttachShader program shader =>
    match s.attached program with
    | some l =>
      if (s.shaderType shader).isSome then
        { s with attached := upd s.attached program (some (l ++ [shader])) }
      else s
    | none => s
  | glLinkProgram program =>
    match s.attached program with
    | some l => { s with linked := upd s.linked program (linkTexts s l) }
    | none => s
  | glUseProgram program => { s with program := program }
  | glGetAttribLocation program name ret =>
    if name = "position" then { s with location := upd s.location program (some ret) } else s
  | glEnableVertexAttribArray index =>
    if s.vertexArray ≠ 0 then { s with enabled := upd s.enabled (s.vertexArray, index) true }
    else s
  | glVertexAttribPointer index size type normalized stride pointer =>
    if s.vertexArray ≠ 0 then
      { s with pointer := upd s.pointer (s.vertexArray, index)
                 (some { size := size, type := type, normalized := normalized,
                         stride := stride, offset := pointer, buffer := s.arrayBuffer }) }
    else s
  | glfwWindowShouldClose _ _ => s
  | glDrawArrays mode first count => { s with back := drawArrays s mode first count }
  | glfwSwapBuffers window =>
    if window ≠ 0 ∧ (s.windowSize window).isSome then { s with back := s.front, front := s.back }
    else s
  | glfwPollEvents => s
  | glClear mask =>
    if mask = GL_COLOR_BUFFER_BIT then { s with back := fun _ => (0, 0, 0, 0) } else s
  | glDeleteBuffers buffer =>
    { s with store := upd s.store buffer none, usage := upd s.usage buffer none
             arrayBuffer := if s.arrayBuffer = buffer then 0 else s.arrayBuffer }
  | glDeleteVertexArrays array =>
    { s with arrays := upd s.arrays array false
             vertexArray := if s.vertexArray = array then 0 else s.vertexArray }
  | glDeleteShader shader =>
    { s with shaderType := upd s.shaderType shader none
             shaderText := upd s.shaderText shader none
             compiled := upd s.compiled shader none }
  | glDeleteProgram program =>
    { s with attached := upd s.attached program none, linked := upd s.linked program none
             location := upd s.location program none }
  | glfwDestroyWindow window =>
    { s with windowSize := upd s.windowSize window none
             windowHints := upd s.windowHints window (fun _ => none)
             context := if s.context = window then 0 else s.context }
  | glGetShaderiv _ => s
  | glGetProgramiv _ => s
  | glGetShaderInfoLog _ => s
  | glGetProgramInfoLog _ => s
  | glGetError => s
  | glfwTerminate => GLState.initial s.front s.back

/-- State after a sequence of calls. -/
def glRun (s : GLState) (calls : List Call) : GLState := calls.foldl glStep s

/-! ## Observations on traces -/

/-- Name of the entry point. -/
def Call.name : Call → String
  | glfwInit _ => "glfwInit"
  | glfwWindowHint _ _ => "glfwWindowHint"
  | glfwCreateWindow _ _ _ _ _ _ => "glfwCreateWindow"
  | glfwMakeContextCurrent _ => "glfwMakeContextCurrent"
  | glewExperimental_set _ => "glewExperimental="
  | glewInit _ => "glewInit"
  | glGenVertexArrays _ _ => "glGenVertexArrays"
  | glBindVertexArray _ => "glBindVertexArray"
  | glGenBuffers _ _ => "glGenBuffers"
  | glBindBuffer _ _ => "glBindBuffer"
  | glBufferData _ _ _ _ => "glBufferData"
  | glCreateShader _ _ => "glCreateShader"
  | glShaderSource _ _ _ _ => "glShaderSource"
  | glCompileShader _ => "glCompileShader"
  | glCreateProgram _ => "glCreateProgram"
  | glAttachShader _ _ => "glAttachShader"
  | glLinkProgram _ => "glLinkProgram"
  | glUseProgram _ => "glUseProgram"
  | glGetAttribLocation _ _ _ => "glGetAttribLocation"
  | glEnableVertexAttribArray _ => "glEnableVertexAttribArray"
  | glVertexAttribPointer _ _ _ _ _ _ => "glVertexAttribPointer"
  | glfwWindowShouldClose _ _ => "glfwWindowShouldClose"
  | glDrawArrays _ _ _ => "glDrawArrays"
  | glfwSwapBuffers _ => "glfwSwapBuffers"
  | glfwPollEvents => "glfwPollEvents"
  | glfwTerminate => "glfwTerminate"
  | glfwDefaultWindowHints => "glfwDefaultWindowHints"
  | glfwDestroyWindow _ => "glfwDestroyWindow"
  | glDeleteBuffers _ => "glDeleteBuffers"
  | glDeleteVertexArrays _ => "glDeleteVertexArrays"
  | glDeleteShader _ => "glDeleteShader"
  | glDeleteProgram _ => "glDeleteProgram"
  | glBufferSubData _ _ _ => "glBufferSubData"
  | glClear _ => "glClear"
  | glGetShaderiv _ => "glGetShaderiv"
  | glGetProgramiv _ => "glGetProgramiv"
  | glGetShaderInfoLog _ => "glGetShaderInfoLog"
  | glGetProgramInfoLog _ => "glGetProgramInfoLog"
  | glGetError => "glGetError"

/-- The call is an OpenGL entry point, as opposed to one of GLFW or GLEW: its
name starts with `gl` and an upper-case letter. -/
def Call.isGL : Call → Bool
  | glfwInit _ => false
  | glfwWindowHint _ _ => false
  | glfwCreateWindow _ _ _ _ _ _ => false
  | glfwMakeContextCurrent _ => false
  | glewExperimental_set _ => false
  | glewInit _ => false
  | glfwWindowShouldClose _ _ => false
  | glfwSwapBuffers _ => false
  | glfwPollEvents => false
  | glfwTerminate => false
  | glfwDefaultWindowHints => false
  | glfwDestroyWindow _ => false
  | _ => true

/-- The call is `glDrawArrays`. -/
def Call.isDraw : Call → Bool
  | glDrawArrays _ _ _ => true
  | _ => false

/-- The call is `glfwSwapBuffers`. -/
def Call.isSwap : Call → Bool
  | glfwSwapBuffers _ => true
  | _ => false

/-- The call is `glfwPollEvents`. -/
def Call.isPoll : Call → Bool
  | glfwPollEvents => true
  | _ => false

/-- The call is `glfwWindowShouldClose`, the loop condition. -/
def Call.isCheck : Call → Bool
  | glfwWindowShouldClose _ _ => true
  | _ => false

/-- The call releases a buffer, a vertex array, a shader, a program or a window. -/
def Call.isRelease : Call → Bool
  | glDeleteBuffers _ => true
  | glDeleteVertexArrays _ => true
  | glDeleteShader _ => true
  | glDeleteProgram _ => true
  | glfwDestroyWindow _ => true
  | _ => false

/-- The call writes the data store of a buffer. -/
def Call.isBufferWrite : Call → Bool
  | glBufferData _ _ _ _ => true
  | glBufferSubData _ _ _ => true
  | _ => false

/-- Number of draw calls. -/
def draws (t : List Call) : Nat := t.countP Call.isDraw

/-- Number of presented frames. -/
def swaps (t : List Call) : Nat := t.countP Call.isSwap

/-- Number of event polls. -/
def polls (t : List Call) : Nat := t.countP Call.isPoll

/-- The calls of `n` consecutive loop iterations: each is a close-flag reading
that returned `false` followed by the loop body. -/
def iterations (window : Nat) : Nat → List Call
  | 0 => []
  | n + 1 => glfwWindowShouldClose window false :: (frameBody window ++ iterations window n)

/-- The property `Q history call` holds at every call of `rest`, the history
being `hist` followed by the calls of `rest` before it. -/
def Always (Q : List Call → Call → Prop) : List Call → List Call → Prop
  | _, [] => True
  | hist, c :: rest => Q hist c ∧ Always Q (hist ++ [c]) rest

/-- A run in which every library call succeeds and the close flag is first
seen set at the third reading, so that two frames are drawn. -/
def sampleEnv : Env :=
  { glfwInitOk := true, window := 4096, glewInitOk := true, vao := 1, vbo := 1,
    vertexShader := 1, fragmentShader := 2, shaderProgram := 3, posAttrib := 0,
    shouldClose := fun k => decide (2 ≤ k) }

/-- The part of the library state that the binding and buffer calls act on. -/
structure Core where
  context : Nat
  vertexArray : Nat
  arrayBuffer : Nat
  program : Nat
  store : Nat → Option (List ℚ)
  usage : Nat → Option HeaderConst
  enabled : Nat × Nat → Bool
  pointer : Nat × Nat → Option AttribPointer

/-- Projection of the library state on `Core`. -/
def GLState.core (s : GLState) : Core :=
  { context := s.context, vertexArray := s.vertexArray, arrayBuffer := s.arrayBuffer,
    program := s.program, store := s.store, usage := s.usage, enabled := s.enabled,
    pointer := s.pointer }

/-- Effect of one call on `Core`, field by field (`core_glStep` shows that this is
what `glStep` does). -/
def coreStep (b : Core) : Call → Core
  | glfwMakeContextCurrent window => { b with context := window }
  | glBindVertexArray array => { b with vertexArray := array }
  | glBindBuffer target buffer =>
    { b with arrayBuffer := if target = GL_ARRAY_BUFFER then buffer else b.arrayBuffer }
  | glUseProgram program => { b with program := program }
  | glBufferData target _ data usage =>
    { b with
      store := if target = GL_ARRAY_BUFFER ∧ b.arrayBuffer ≠ 0
        then upd b.store b.arrayBuffer (some data) else b.store
      usage := if target = GL_ARRAY_BUFFER ∧ b.arrayBuffer ≠ 0
        then upd b.usage b.arrayBuffer (some usage) else b.usage }
  | glBufferSubData target offset data =>
    { b with
      store := match b.store b.arrayBuffer with
        | some old =>
          if target = GL_ARRAY_BUFFER ∧ b.arrayBuffer ≠ 0 ∧ 0 ≤ offset
          then upd b.store b.arrayBuffer (some (overwrite old offset.toNat data)) else b.store
        | none => b.store }
  | glEnableVertexAttribArray index =>
    { b with
      enabled := if b.vertexArray ≠ 0 then upd b.enabled (b.vertexArray, index) true
        else b.enabled }
  | glVertexAttribPointer index size type normalized stride pointer =>
    { b with
      pointer := if b.vertexArray ≠ 0 then
          upd b.pointer (b.vertexArray, index)
            (some { size := size, type := type, normalized := normalized,
                    stride := stride, offset := pointer, buffer := b.arrayBuffer })
        else b.pointer }
  | glDeleteBuffers buffer =>
    { b with store := upd b.store buffer none, usage := upd b.usage buffer none
             arrayBuffer := if b.arrayBuffer = buffer then 0 else b.arrayBuffer }
  | glDeleteVertexArrays array =>
    { b with vertexArray := if b.vertexArray = array then 0 else b.vertexArray }
  | glfwDestroyWindow window =>
    { b with context := if b.context = window then 0 else b.context }
  | glfwTerminate =>
    { context := 0, vertexArray := 0, arrayBuffer := 0, program := 0, store := fun _ => none,
      usage := fun _ => none, enabled := fun _ => false, pointer := fun _ => none }
  | _ => b

/-- `Core` before `main` starts. -/
def Core.initial : Core :=
  { context := 0, vertexArray := 0, arrayBuffer := 0, program := 0, store := fun _ => none,
    usage := fun _ => none, enabled := fun _ => false, pointer := fun _ => none }

/-- The attribute array that line 105 describes, over the buffer `buffer`. -/
def positionPointer (buffer : Nat) : AttribPointer :=
  { size := 2, type := GL_FLOAT, normalized := GL_FALSE, stride := 0, offset := 0,
    buffer := buffer }

/-- The call is `glUseProgram`. -/
def Call.isUseProgram : Call → Bool
  | glUseProgram _ => true
  | _ => false

/-- Entry points of the bootstrap in the order of section 4.1 of the
specification: windowing layer and hints, window and context, function loader,
vertex array, buffer and upload, vertex stage, fragment stage, program, attribute
layout. -/
def bootstrapOrder : List String :=
  [ "glfwInit", "glfwWindowHint", "glfwWindowHint", "glfwWindowHint", "glfwWindowHint",
    "glfwWindowHint",
    "glfwCreateWindow", "glfwMakeContextCurrent",
    "glewExperimental=", "glewInit",
    "glGenVertexArrays", "glBindVertexArray",
    "glGenBuffers", "glBindBuffer", "glBufferData",
    "glCreateShader", "glShaderSource", "glCompileShader",
    "glCreateShader", "glShaderSource", "glCompileShader",
    "glCreateProgram", "glAttachShader", "glAttachShader", "glLinkProgram", "glUseProgram",
    "glGetAttribLocation", "glEnableVertexAttribArray", "glVertexAttribPointer" ]

/-- The call is `glVertexAttribPointer`. -/
def Call.isAttribPointer : Call → Bool
  | glVertexAttribPointer _ _ _ _ _ _ => true
  | _ => false

/-- Consecutive floats read as `(x, y)` pairs. -/
def pairs : List ℚ → List (ℚ × ℚ)
  | x :: y :: rest => (x, y) :: pairs rest
  | _ => []

/-- Colour buffer contents used in the checks: opaque black everywhere. -/
def black : Pixel → Color := fun _ => (0, 0, 0, 1)

/-- The call is `glfwCreateWindow`. -/
def Call.isCreateWindow : Call → Bool
  | glfwCreateWindow _ _ _ _ _ _ => true
  | _ => false

/-- The call sets or resets window hints. -/
def Call.isHintChange : Call → Bool
  | glfwInit _ => true
  | glfwWindowHint _ _ => true
  | glfwDefaultWindowHints => true
  | _ => false

/-- The part of the library state that belongs to GLFW. -/
structure Glfw where
  initialised : Bool
  hints : HeaderConst → Option HintValue
  windowSize : Nat → Option (Int × Int)
  windowHints : Nat → HeaderConst → Option HintValue

/-- Projection of the library state on `Glfw`. -/
def GLState.glfw (s : GLState) : Glfw :=
  { initialised := s.initialised, hints := s.hints, windowSize := s.windowSize,
    windowHints := s.windowHints }

/-- Effect of one call on `Glfw`, field by field (`glfw_glStep` shows that this is
what `glStep` does). -/
def glfwStep (g : Glfw) : Call → Glfw
  | glfwInit ret =>
    { g with initialised := if ret then true else g.initialised
             hints := if ret then fun _ => none else g.hints }
  | glfwWindowHint hint value =>
    { g with hints := if g.initialised then upd g.hints hint (some value) else g.hints }
  | glfwDefaultWindowHints => { g with hints := fun _ => none }
  | glfwCreateWindow width height _ _ _ ret =>
    { g with
      windowSize := if ret ≠ 0 then upd g.windowSize ret (some (width, height))
        else g.windowSize
      windowHints := if ret ≠ 0 then upd g.windowHints ret g.hints else g.windowHints }
  | glfwDestroyWindow window =>
    { g with windowSize := upd g.windowSize window none
             windowHints := upd g.windowHints window (fun _ => none) }
  | glfwTerminate =>
    { initialised := false, hints := fun _ => none, windowSize := fun _ => none,
      windowHints := fun _ _ => none }
  | _ => g

/-- `Glfw` before `main` starts. -/
def Glfw.initial : Glfw :=
  { initialised := false, hints := fun _ => none, windowSize := fun _ => none,
    windowHints := fun _ _ => none }

/-- The hints that lines 30 to 34 ask for; every other hint is left at the
library default. -/
def requestedHints : HeaderConst → Option HintValue
  | GLFW_CONTEXT_VERSION_MAJOR => some (.lit 3)
  | GLFW_CONTEXT_VERSION_MINOR => some (.lit 3)
  | GLFW_OPENGL_PROFILE => some (.const GLFW_OPENGL_CORE_PROFILE)
  | GLFW_OPENGL_FORWARD_COMPAT => some (.const GL_TRUE)
  | GLFW_RESIZABLE => some (.const GL_FALSE)
  | _ => none

/-- Boolean form of `Always`, for properties that can be computed. -/
def alwaysB (q : List Call → Call → Bool) : List Call → List Call → Bool
  | _, [] => true
  | hist, c :: rest => q hist c && alwaysB q (hist ++ [c]) rest

/-- A run in which the close flag is already set at the first reading. -/
def closedAtOnceEnv : Env := { sampleEnv with shouldClose := fun _ => true }

/-- A run in which the close flag is first seen set at the second reading, after
the first `glfwPollEvents`. -/
def closedAfterPollEnv : Env := { sampleEnv with shouldClose := fun k => decide (1 ≤ k) }

/-- A successful run: GLFW and GLEW initialise, the window is created, the
objects get names other than 0, the two shaders get different names, and
`position` has a location. -/
def Env.successful (e : Env) : Prop :=
  e.glfwInitOk = true ∧ e.window ≠ 0 ∧ e.glewInitOk = true ∧ e.vao ≠ 0 ∧ e.vbo ≠ 0
    ∧ e.vertexShader ≠ 0 ∧ e.fragmentShader ≠ 0 ∧ e.vertexShader ≠ e.fragmentShader
    ∧ e.shaderProgram ≠ 0 ∧ 0 ≤ e.posAttrib

/-- The call is `glClear`. -/
def Call.isClear : Call → Bool
  | glClear _ => true
  | _ => false

/-- The three uploaded vertices, as the vertex stage receives them. -/
def corners : (ℚ × ℚ) × (ℚ × ℚ) × (ℚ × ℚ) := ((0, 1/2), (1/2, -1/2), (-1/2, -1/2))

/-- The pixel is covered by the triangle that the draw call of line 112 assembles
from the uploaded vertices in the 800 by 600 window. -/
def triangleCovers (p : Pixel) : Bool :=
  covers (800, 600) (vertexMain corners.1) (vertexMain corners.2.1) (vertexMain corners.2.2) p

/-- A colour buffer after the triangle has been drawn into it. -/
def paint (buffer : Pixel → Color) : Pixel → Color :=
  fun p => if triangleCovers p then fragmentMain else buffer p

/-- Centroid of the three uploaded vertices. -/
def centroid : ℚ × ℚ :=
  ((corners.1.1 + corners.2.1.1 + corners.2.2.1) / 3,
   (corners.1.2 + corners.2.1.2 + corners.2.2.2) / 3)

/-- The pixel of a window of the given size that holds a point given in
normalised device coordinates. -/
def pixelOf (size : Int × Int) (q : ℚ × ℚ) : Pixel :=
  (⌊(q.1 + 1) / 2 * (size.1 : ℚ)⌋.toNat, ⌊(q.2 + 1) / 2 * (size.2 : ℚ)⌋.toNat)

/-- The pixel that holds the centroid: column 400, row 250. -/
def centroidPixel : Pixel := (400, 250)

/-! ## Lemmas on the loop -/

theorem always_split (Q : List Call → Call → Prop) (rest : List Call) :
    ∀ hist, Always Q hist rest →
      ∀ pre c post, rest = pre ++ c :: post → Q (hist ++ pre) c := by
  induction rest with
  | nil => intro hist _ pre c post h; simp at h
  | cons x xs ih =>
    intro hist hA pre c post h
    obtain ⟨hx, hxs⟩ := hA
    cases pre with
    | nil =>
      simp at h
      obtain ⟨rfl, -⟩ := h
      simpa using hx
    | cons y ys =>
      simp at h
      obtain ⟨rfl, h2⟩ := h
      have := ih (hist ++ [x]) hxs ys c post h2
      simpa using this

/-- The loop leaves at the first reading that returns `true`. -/
theorem frameLoop_exit (w : Nat) (sc : Nat → Bool) :
    ∀ n fuel k, (∀ j, j < n → sc (k + j) = false) → sc (k + n) = true → n < fuel →
      frameLoop w sc fuel k = (iterations w n ++ [glfwWindowShouldClose w true], true) := by
  intro n
  induction n with
  | zero =>
    intro fuel k _ ht hf
    cases fuel with
    | zero => omega
    | succ fuel => simp at ht; simp [frameLoop, ht, iterations]
  | succ n ih =>
    intro fuel k hfalse ht hf
    cases fuel with
    | zero => omega
    | succ fuel =>
      have h0 : sc k = false := by simpa using hfalse 0 (by omega)
      have := ih fuel (k + 1) (fun j hj => by
        have := hfalse (j + 1) (by omega)
        rwa [show k + 1 + j = k + (j + 1) by omega]) (by
        rwa [show k + 1 + n = k + (n + 1) by omega]) (by omega)
      simp [frameLoop, h0, this, iterations]

/-- While every reading returns `false` the loop goes on. -/
theorem frameLoop_running (w : Nat) (sc : Nat → Bool) :
    ∀ fuel k, (∀ j, j < fuel → sc (k + j) = false) →
      frameLoop w sc fuel k = (iterations w fuel, false) := by
  intro fuel
  induction fuel with
  | zero => intro k _; simp [frameLoop, iterations]
  | succ fuel ih =>
    intro k hfalse
    have h0 : sc k = false := by simpa using hfalse 0 (by omega)
    have := ih (k + 1) (fun j hj => by
      have := hfalse (j + 1) (by omega)
      rwa [show k + 1 + j = k + (j + 1) by omega])
    simp [frameLoop, h0, this, iterations]

/-- Every run of the loop has one of the two shapes. -/
theorem frameLoop_shape (w : Nat) (sc : Nat → Bool) (fuel : Nat) :
    (∃ n, n < fuel ∧ (∀ j, j < n → sc j = false) ∧ sc n = true
        ∧ frameLoop w sc fuel 0 = (iterations w n ++ [glfwWindowShouldClose w true], true))
    ∨ ((∀ j, j < fuel → sc j = false)
        ∧ frameLoop w sc fuel 0 = (iterations w fuel, false)) := by
  by_cases h : ∃ n, n < fuel ∧ sc n = true
  · left
    classical
    refine ⟨Nat.find h, (Nat.find_spec h).1, ?_, (Nat.find_spec h).2, ?_⟩
    · intro j hj
      have := Nat.find_min h hj
      have hlt : j < fuel := lt_trans hj (Nat.find_spec h).1
      simpa [hlt] using this
    · apply frameLoop_exit
      · intro j hj
        have := Nat.find_min h hj
        have hlt : j < fuel := lt_trans hj (Nat.find_spec h).1
        simpa [hlt] using this
      · simpa using (Nat.find_spec h).2
      · exact (Nat.find_spec h).1
  · right
    have hf : ∀ j, j < fuel → sc j = false := by
      intro j hj
      by_contra hc
      exact h ⟨j, hj, by simpa using hc⟩
    exact ⟨hf, frameLoop_running w sc fuel 0 (by simpa using hf)⟩

/-- Shape of the whole trace. -/
theorem main_shape (e : Env) (fuel : Nat) :
    (∃ n, n < fuel ∧ (∀ j, j < n → e.shouldClose j = false) ∧ e.shouldClose n = true
        ∧ main e fuel =
          { trace := bootstrap e ++ (iterations e.window n
              ++ [glfwWindowShouldClose e.window true]) ++ [glfwTerminate],
            exitCode := some 0 })
    ∨ ((∀ j, j < fuel → e.shouldClose j = false)
        ∧ main e fuel =
          { trace := bootstrap e ++ iterations e.window fuel, exitCode := none }) := by
  rcases frameLoop_shape e.window e.shouldClose fuel with ⟨n, h1, h2, h3, h4⟩ | ⟨h1, h2⟩
  · left; exact ⟨n, h1, h2, h3, by simp [main, h4]⟩
  · right; exact ⟨h1, by simp [main, h2]⟩

/-- Where a call of `iterations w n ++ tail` can sit: at one of the four
positions of an iteration, or in `tail`. -/
theorem split_iterations (w : Nat) (tail : List Call) :
    ∀ n pre c post, iterations w n ++ tail = pre ++ c :: post →
      (∃ m k, m + k + 1 = n ∧ pre = iterations w m ∧ c = glfwWindowShouldClose w false
          ∧ post = frameBody w ++ (iterations w k ++ tail))
      ∨ (∃ m k, m + k + 1 = n ∧ pre = iterations w m ++ [glfwWindowShouldClose w false]
          ∧ c = glDrawArrays GL_TRIANGLES 0 3
          ∧ post = glfwSwapBuffers w :: glfwPollEvents :: (iterations w k ++ tail))
      ∨ (∃ m k, m + k + 1 = n
          ∧ pre = iterations w m ++ [glfwWindowShouldClose w false, glDrawArrays GL_TRIANGLES 0 3]
          ∧ c = glfwSwapBuffers w
          ∧ post = glfwPollEvents :: (iterations w k ++ tail))
      ∨ (∃ m k, m + k + 1 = n
          ∧ pre = iterations w m ++ [glfwWindowShouldClose w false, glDrawArrays GL_TRIANGLES 0 3,
              glfwSwapBuffers w]
          ∧ c = glfwPollEvents
          ∧ post = iterations w k ++ tail)
      ∨ (∃ pre', pre = iterations w n ++ pre' ∧ tail = pre' ++ c :: post) := by
  intro n
  induction n with
  | zero =>
    intro pre c post h
    right; right; right; right
    exact ⟨pre, by simp [iterations], by simpa [iterations] using h⟩
  | succ n ih =>
    intro pre c post h
    simp only [iterations, frameBody, List.cons_append, List.nil_append] at h
    match pre, h with
    | [], h =>
      simp at h
      obtain ⟨rfl, rfl⟩ := h
      left
      exact ⟨0, n, by omega, by simp [iterations], rfl, by simp [frameBody]⟩
    | [x], h =>
      simp at h
      obtain ⟨rfl, rfl, rfl⟩ := h
      right; left
      exact ⟨0, n, by omega, by simp [iterations], rfl, rfl⟩
    | [x, y], h =>
      simp at h
      obtain ⟨rfl, rfl, rfl, rfl⟩ := h
      right; right; left
      exact ⟨0, n, by omega, by simp [iterations], rfl, rfl⟩
    | [x, y, z], h =>
      simp at h
      obtain ⟨rfl, rfl, rfl, rfl, rfl⟩ := h
      right; right; right; left
      exact ⟨0, n, by omega, by simp [iterations], rfl, rfl⟩
    | x :: y :: z :: u :: pre', h =>
      simp at h
      obtain ⟨rfl, rfl, rfl, rfl, h⟩ := h
      rcases ih pre' c post h with ⟨m, k, hmk, hp, hc, hq⟩ | ⟨m, k, hmk, hp, hc, hq⟩
        | ⟨m, k, hmk, hp, hc, hq⟩ | ⟨m, k, hmk, hp, hc, hq⟩ | ⟨q, hp, hq⟩
      · left
        exact ⟨m + 1, k, by omega, by simp [iterations, frameBody, hp], hc, hq⟩
      · right; left
        exact ⟨m + 1, k, by omega, by simp [iterations, frameBody, hp], hc, hq⟩
      · right; right; left
        exact ⟨m + 1, k, by omega, by simp [iterations, frameBody, hp], hc, hq⟩
      · right; right; right; left
        exact ⟨m + 1, k, by omega, by simp [iterations, frameBody, hp], hc, hq⟩
      · right; right; right; right
        exact ⟨q, by simp [iterations, frameBody, hp], hq⟩

/-- A call of `a ++ b` sits in `a` or in `b`. -/
theorem split_append (a b pre : List Call) (c : Call) (post : List Call)
    (h : a ++ b = pre ++ c :: post) :
    (∃ post', a = pre ++ c :: post' ∧ post = post' ++ b)
    ∨ (∃ pre', pre = a ++ pre' ∧ b = pre' ++ c :: post) := by
  rcases List.append_eq_append_iff.mp h with ⟨a', h1, h2⟩ | ⟨c', h1, h2⟩
  · right; exact ⟨a', h1, h2⟩
  · cases c' with
    | nil =>
      right
      refine ⟨[], by simpa using h1.symm, by simpa using h2.symm⟩
    | cons x xs =>
      simp at h2
      obtain ⟨rfl, rfl⟩ := h2
      left; exact ⟨xs, h1, rfl⟩

@[simp] theorem draws_iterations (w n : Nat) : draws (iterations w n) = n := by
  induction n with
  | zero => simp [iterations, draws]
  | succ n ih =>
    simp only [draws] at ih
    simp [iterations, frameBody, draws, Call.isDraw, List.countP_cons, ih]

@[simp] theorem swaps_iterations (w n : Nat) : swaps (iterations w n) = n := by
  induction n with
  | zero => simp [iterations, swaps]
  | succ n ih =>
    simp only [swaps] at ih
    simp [iterations, frameBody, swaps, Call.isSwap, List.countP_cons, ih]

@[simp] theorem polls_iterations (w n : Nat) : polls (iterations w n) = n := by
  induction n with
  | zero => simp [iterations, polls]
  | succ n ih =>
    simp only [polls] at ih
    simp [iterations, frameBody, polls, Call.isPoll, List.countP_cons, ih]

theorem draws_append (a b : List Call) : draws (a ++ b) = draws a + draws b := by
  simp [draws]

theorem swaps_append (a b : List Call) : swaps (a ++ b) = swaps a + swaps b := by
  simp [swaps]

theorem polls_append (a b : List Call) : polls (a ++ b) = polls a + polls b := by
  simp [polls]

theorem draws_bootstrap (e : Env) : draws (bootstrap e) = 0 := by
  simp [draws, bootstrap, Call.isDraw, List.countP_cons]

theorem swaps_bootstrap (e : Env) : swaps (bootstrap e) = 0 := by
  simp [swaps, bootstrap, Call.isSwap, List.countP_cons]

theorem polls_bootstrap (e : Env) : polls (bootstrap e) = 0 := by
  simp [polls, bootstrap, Call.isPoll, List.countP_cons]

/-- Where a close-flag reading can sit in a run. -/
theorem check_split (e : Env) (n : Nat) (tail pre post : List Call) (w : Nat) (r : Bool)
    (htail : tail = [] ∨ tail = [glfwWindowShouldClose e.window true, glfwTerminate])
    (h : bootstrap e ++ (iterations e.window n ++ tail)
      = pre ++ glfwWindowShouldClose w r :: post) :
    (∃ m k, m + k + 1 = n ∧ pre = bootstrap e ++ iterations e.window m ∧ r = false
        ∧ w = e.window ∧ post = frameBody e.window ++ (iterations e.window k ++ tail))
    ∨ (pre = bootstrap e ++ iterations e.window n ∧ r = true ∧ w = e.window
        ∧ tail = [glfwWindowShouldClose e.window true, glfwTerminate]
        ∧ post = [glfwTerminate]) := by
  rcases split_append _ _ _ _ _ h with ⟨post', h1, -⟩ | ⟨pre', rfl, h2⟩
  · exfalso
    have hm : glfwWindowShouldClose w r ∈ bootstrap e := by rw [h1]; simp
    simp [bootstrap] at hm
  · rcases split_iterations _ _ _ _ _ _ h2 with ⟨m, k, hmk, hp, hc, hq⟩ | ⟨m, k, hmk, hp, hc, hq⟩
        | ⟨m, k, hmk, hp, hc, hq⟩ | ⟨m, k, hmk, hp, hc, hq⟩ | ⟨q, hp, hq⟩
    · left
      simp at hc
      exact ⟨m, k, hmk, by rw [hp], hc.2, hc.1, hq⟩
    · simp at hc
    · simp at hc
    · simp at hc
    · right
      rcases htail with rfl | rfl
      · simp at hq
      · match q, hq with
        | [], hq =>
          simp at hq
          obtain ⟨⟨rfl, rfl⟩, rfl⟩ := hq
          exact ⟨by simp [hp], rfl, rfl, rfl, rfl⟩
        | [x], hq => simp at hq
        | x :: y :: q', hq => simp at hq

/-- Where `glfwTerminate` can sit in a run. -/
theorem terminate_split (e : Env) (n : Nat) (tail pre post : List Call)
    (htail : tail = [] ∨ tail = [glfwWindowShouldClose e.window true, glfwTerminate])
    (h : bootstrap e ++ (iterations e.window n ++ tail) = pre ++ glfwTerminate :: post) :
    pre = bootstrap e ++ iterations e.window n ++ [glfwWindowShouldClose e.window true]
      ∧ post = [] ∧ tail = [glfwWindowShouldClose e.window true, glfwTerminate] := by
  rcases split_append _ _ _ _ _ h with ⟨post', h1, -⟩ | ⟨pre', rfl, h2⟩
  · exfalso
    have hm : glfwTerminate ∈ bootstrap e := by rw [h1]; simp
    simp [bootstrap] at hm
  · rcases split_iterations _ _ _ _ _ _ h2 with ⟨m, k, hmk, hp, hc, hq⟩ | ⟨m, k, hmk, hp, hc, hq⟩
        | ⟨m, k, hmk, hp, hc, hq⟩ | ⟨m, k, hmk, hp, hc, hq⟩ | ⟨q, hp, hq⟩
    · simp at hc
    · simp at hc
    · simp at hc
    · simp at hc
    · rcases htail with rfl | rfl
      · simp at hq
      · match q, hq with
        | [], hq => simp at hq
        | [x], hq =>
          simp at hq
          obtain ⟨rfl, rfl⟩ := hq
          exact ⟨by simp [hp], rfl, rfl⟩
        | x :: y :: q', hq => simp at hq

/-! ## The claims -/

/-- C1. Frame-loop invariant.  For every run (every environment, every bound
`fuel` on the number of readings followed): (1) at every loop-condition check the
calls issued so far contain as many `glfwSwapBuffers` and `glfwPollEvents` as
`glDrawArrays`, the check is made on the program's window and its result is the
reading whose index is the number of frames drawn so far; (2) `main` returns iff
some reading within the bound is `true`; (3) if the first `true` reading has index
`n` then exactly `n` iterations run (`n` draws, swaps and polls) and `main`
returns 0; (4) while all readings are `false` the loop is still running, with as
many iterations as readings; (5) a `false` reading is always followed by the loop
body; (6) a `true` reading is followed by `glfwTerminate` and nothing else; (7)
`glfwTerminate` only ever comes right after a `true` reading and ends the trace. -/
theorem frame_loop_invariant (e : Env) (fuel : Nat) :
    (∀ pre post w r, (main e fuel).trace = pre ++ glfwWindowShouldClose w r :: post →
        swaps pre = draws pre ∧ polls pre = draws pre ∧ w = e.window
        ∧ r = e.shouldClose (draws pre))
    ∧ ((main e fuel).exitCode ≠ none ↔ ∃ n, n < fuel ∧ e.shouldClose n = true)
    ∧ (∀ n, n < fuel → (∀ j, j < n → e.shouldClose j = false) → e.shouldClose n = true →
        (main e fuel).exitCode = some 0 ∧ draws (main e fuel).trace = n
        ∧ swaps (main e fuel).trace = n ∧ polls (main e fuel).trace = n)
    ∧ ((∀ j, j < fuel → e.shouldClose j = false) →
        (main e fuel).exitCode = none ∧ draws (main e fuel).trace = fuel)
    ∧ (∀ pre post w, (main e fuel).trace = pre ++ glfwWindowShouldClose w false :: post →
        ∃ rest, post = frameBody e.window ++ rest)
    ∧ (∀ pre post w, (main e fuel).trace = pre ++ glfwWindowShouldClose w true :: post →
        post = [glfwTerminate])
    ∧ (∀ pre post, (main e fuel).trace = pre ++ glfwTerminate :: post →
        post = [] ∧ ∃ pre', pre = pre' ++ [glfwWindowShouldClose e.window true]) := by
  have hcount : ∀ m, swaps (bootstrap e ++ iterations e.window m)
        = draws (bootstrap e ++ iterations e.window m)
      ∧ polls (bootstrap e ++ iterations e.window m)
        = draws (bootstrap e ++ iterations e.window m)
      ∧ draws (bootstrap e ++ iterations e.window m) = m := by
    intro m
    simp [draws_append, swaps_append, polls_append, draws_bootstrap, swaps_bootstrap,
      polls_bootstrap]
  rcases main_shape e fuel with ⟨n, hn, hfalse, htrue, hmain⟩ | ⟨hfalse, hmain⟩
  · have htr : (main e fuel).trace = bootstrap e ++ (iterations e.window n
        ++ [glfwWindowShouldClose e.window true, glfwTerminate]) := by
      simp [hmain]
    have hex : (main e fuel).exitCode = some 0 := by simp [hmain]
    refine ⟨?_, ?_, ?_, ?_, ?_, ?_, ?_⟩
    · intro pre post w r h
      rw [htr] at h
      rcases check_split e n _ pre post w r (Or.inr rfl) h with
        ⟨m, k, hmk, rfl, rfl, rfl, -⟩ | ⟨rfl, rfl, rfl, -, -⟩
      · obtain ⟨h1, h2, h3⟩ := hcount m
        exact ⟨h1, h2, rfl, by rw [h3]; exact (hfalse m (by omega)).symm⟩
      · obtain ⟨h1, h2, h3⟩ := hcount n
        exact ⟨h1, h2, rfl, by rw [h3]; exact htrue.symm⟩
    · rw [hex]
      simp only [ne_eq, reduceCtorEq, not_false_eq_true, true_iff]
      exact ⟨n, hn, htrue⟩
    · intro n' hn' hfalse' htrue'
      have hnn : n' = n := by
        rcases Nat.lt_trichotomy n' n with hlt | heq | hgt
        · have := hfalse n' hlt; simp [this] at htrue'
        · exact heq
        · have := hfalse' n hgt; simp [this] at htrue
      subst hnn
      refine ⟨hex, ?_, ?_, ?_⟩ <;> rw [htr] <;>
        simp [draws_append, swaps_append, polls_append, draws_bootstrap, swaps_bootstrap,
          polls_bootstrap] <;>
        simp [draws, swaps, polls, Call.isDraw, Call.isSwap, Call.isPoll, List.countP_cons]
    · intro hall
      have := hall n hn
      simp [this] at htrue
    · intro pre post w h
      rw [htr] at h
      rcases check_split e n _ pre post w false (Or.inr rfl) h with
        ⟨m, k, -, -, -, -, hq⟩ | ⟨-, hr, -, -, -⟩
      · exact ⟨_, hq⟩
      · simp at hr
    · intro pre post w h
      rw [htr] at h
      rcases check_split e n _ pre post w true (Or.inr rfl) h with
        ⟨m, k, -, -, hr, -, -⟩ | ⟨-, -, -, -, hq⟩
      · simp at hr
      · exact hq
    · intro pre post h
      rw [htr] at h
      obtain ⟨h1, h2, -⟩ := terminate_split e n _ pre post (Or.inr rfl) h
      exact ⟨h2, _, h1⟩
  · have htr : (main e fuel).trace = bootstrap e ++ (iterations e.window fuel ++ []) := by
      simp [hmain]
    have hex : (main e fuel).exitCode = none := by simp [hmain]
    refine ⟨?_, ?_, ?_, ?_, ?_, ?_, ?_⟩
    · intro pre post w r h
      rw [htr] at h
      rcases check_split e fuel _ pre post w r (Or.inl rfl) h with
        ⟨m, k, hmk, rfl, rfl, rfl, -⟩ | ⟨-, -, -, ht, -⟩
      · obtain ⟨h1, h2, h3⟩ := hcount m
        exact ⟨h1, h2, rfl, by rw [h3]; exact (hfalse m (by omega)).symm⟩
      · simp at ht
    · rw [hex]
      simp only [ne_eq, not_true_eq_false, false_iff, not_exists, not_and]
      intro k hk
      simp [hfalse k hk]
    · intro n' hn' _ htrue'
      simp [hfalse n' hn'] at htrue'
    · intro _
      refine ⟨hex, ?_⟩
      rw [htr]
      simp [draws_append, draws_bootstrap]
    · intro pre post w h
      rw [htr] at h
      rcases check_split e fuel _ pre post w false (Or.inl rfl) h with
        ⟨m, k, -, -, -, -, hq⟩ | ⟨-, hr, -, -, -⟩
      · exact ⟨_, hq⟩
      · simp at hr
    · intro pre post w h
      rw [htr] at h
      rcases check_split e fuel _ pre post w true (Or.inl rfl) h with
        ⟨m, k, -, -, hr, -, -⟩ | ⟨-, -, -, ht, -⟩
      · simp at hr
      · simp at ht
    · intro pre post h
      rw [htr] at h
      obtain ⟨-, -, ht⟩ := terminate_split e fuel _ pre post (Or.inl rfl) h
      simp at ht

/-- Check of C1 on `sampleEnv`, whose first `true` reading is the third. -/
theorem frame_loop_invariant_witness :
    (main sampleEnv 5).exitCode = some 0 ∧ draws (main sampleEnv 5).trace = 2
      ∧ swaps (main sampleEnv 5).trace = 2 ∧ polls (main sampleEnv 5).trace = 2 :=
  (frame_loop_invariant sampleEnv 5).2.2.1 2 (by decide) (by decide) (by decide)

theorem mem_iterations (w : Nat) (c : Call) :
    ∀ n, c ∈ iterations w n → c = glfwWindowShouldClose w false ∨ c ∈ frameBody w := by
  intro n
  induction n with
  | zero => intro h; simp [iterations] at h
  | succ n ih =>
    intro h
    simp only [iterations, List.mem_cons, List.mem_append] at h
    rcases h with h | h | h
    · exact Or.inl h
    · exact Or.inr h
    · exact ih h

/-- Every call of a run is one of the bootstrap, a `false` reading, a call of the
loop body, the final `true` reading or `glfwTerminate`. -/
theorem mem_trace (e : Env) (fuel : Nat) (c : Call) (h : c ∈ (main e fuel).trace) :
    c ∈ bootstrap e ∨ c ∈ frameBody e.window ∨ (∃ r, c = glfwWindowShouldClose e.window r)
      ∨ c = glfwTerminate := by
  rcases main_shape e fuel with ⟨n, -, -, -, hmain⟩ | ⟨-, hmain⟩
  · rw [hmain] at h
    simp only [List.mem_append, List.mem_singleton] at h
    rcases h with (h | h | h) | h
    · exact Or.inl h
    · rcases mem_iterations _ _ _ h with h | h
      · exact Or.inr (Or.inr (Or.inl ⟨_, h⟩))
      · exact Or.inr (Or.inl h)
    · exact Or.inr (Or.inr (Or.inl ⟨_, h⟩))
    · exact Or.inr (Or.inr (Or.inr h))
  · rw [hmain] at h
    simp only [List.mem_append] at h
    rcases h with h | h
    · exact Or.inl h
    · rcases mem_iterations _ _ _ h with h | h
      · exact Or.inr (Or.inr (Or.inl ⟨_, h⟩))
      · exact Or.inr (Or.inl h)

/-- Where a draw call can sit in a run. -/
theorem draw_split (e : Env) (n : Nat) (tail pre post : List Call) (mode : HeaderConst)
    (first count : Int)
    (htail : tail = [] ∨ tail = [glfwWindowShouldClose e.window true, glfwTerminate])
    (h : bootstrap e ++ (iterations e.window n ++ tail)
      = pre ++ glDrawArrays mode first count :: post) :
    ∃ m k, m + k + 1 = n
      ∧ pre = bootstrap e ++ iterations e.window m ++ [glfwWindowShouldClose e.window false]
      ∧ mode = GL_TRIANGLES ∧ first = 0 ∧ count = 3
      ∧ post = glfwSwapBuffers e.window :: glfwPollEvents :: (iterations e.window k ++ tail) := by
  rcases split_append _ _ _ _ _ h with ⟨post', h1, -⟩ | ⟨pre', rfl, h2⟩
  · exfalso
    have hm : glDrawArrays mode first count ∈ bootstrap e := by rw [h1]; simp
    simp [bootstrap] at hm
  · rcases split_iterations _ _ _ _ _ _ h2 with ⟨m, k, hmk, hp, hc, hq⟩ | ⟨m, k, hmk, hp, hc, hq⟩
        | ⟨m, k, hmk, hp, hc, hq⟩ | ⟨m, k, hmk, hp, hc, hq⟩ | ⟨q, hp, hq⟩
    · simp at hc
    · simp at hc
      exact ⟨m, k, hmk, by simp [hp], hc.1, hc.2.1, hc.2.2, hq⟩
    · simp at hc
    · simp at hc
    · exfalso
      rcases htail with rfl | rfl
      · simp at hq
      · match q, hq with
        | [], hq => simp at hq
        | [x], hq => simp at hq
        | x :: y :: q', hq => simp at hq

/-- What follows the iterations starts with a close-flag reading, if anything
follows. -/
theorem iterations_tail_head (w k : Nat) (tail : List Call)
    (htail : tail = [] ∨ tail = [glfwWindowShouldClose w true, glfwTerminate]) :
    iterations w k ++ tail = []
      ∨ ∃ r rest, iterations w k ++ tail = glfwWindowShouldClose w r :: rest := by
  cases k with
  | zero =>
    rcases htail with rfl | rfl
    · left; simp [iterations]
    · right; exact ⟨true, [glfwTerminate], by simp [iterations]⟩
  | succ k =>
    right
    exact ⟨false, frameBody w ++ (iterations w k ++ tail), by simp [iterations]⟩

/-- The trace of every run, with the loop part spelt out. -/
theorem trace_shape (e : Env) (fuel : Nat) :
    ∃ n tail, (tail = [] ∨ tail = [glfwWindowShouldClose e.window true, glfwTerminate])
      ∧ (main e fuel).trace = bootstrap e ++ (iterations e.window n ++ tail) := by
  rcases main_shape e fuel with ⟨n, -, -, -, hmain⟩ | ⟨-, hmain⟩
  · exact ⟨n, _, Or.inr rfl, by simp [hmain]⟩
  · exact ⟨fuel, [], Or.inl rfl, by simp [hmain]⟩

/-- C2. One draw call per frame.  In every run: (1) the calls after the bootstrap
are whole iterations, each a `false` reading followed by the loop body, then
possibly the `true` reading and `glfwTerminate`; (2) a `false` reading is
followed by exactly `glDrawArrays(GL_TRIANGLES, 0, 3)`, `glfwSwapBuffers(window)`,
`glfwPollEvents()` in this order, after which comes the next reading or nothing;
(3) every `glDrawArrays` of the trace has mode `GL_TRIANGLES`, first 0 and count
3, comes right after a `false` reading and right before the swap and the poll;
(4) the loop body holds one draw call and the bootstrap none. -/
theorem one_draw_per_frame (e : Env) (fuel : Nat) :
    (∃ n tail, (tail = [] ∨ tail = [glfwWindowShouldClose e.window true, glfwTerminate])
        ∧ (main e fuel).trace = bootstrap e ++ (iterations e.window n ++ tail))
    ∧ (∀ pre post w, (main e fuel).trace = pre ++ glfwWindowShouldClose w false :: post →
        ∃ rest, post = glDrawArrays GL_TRIANGLES 0 3 :: glfwSwapBuffers e.window
            :: glfwPollEvents :: rest
          ∧ (rest = [] ∨ ∃ r rest', rest = glfwWindowShouldClose e.window r :: rest'))
    ∧ (∀ pre post mode first count,
        (main e fuel).trace = pre ++ glDrawArrays mode first count :: post →
        mode = GL_TRIANGLES ∧ first = 0 ∧ count = 3
          ∧ (∃ pre', pre = pre' ++ [glfwWindowShouldClose e.window false])
          ∧ ∃ rest, post = glfwSwapBuffers e.window :: glfwPollEvents :: rest)
    ∧ draws (frameBody e.window) = 1 ∧ draws (bootstrap e) = 0 := by
  obtain ⟨n, tail, htail, htr⟩ := trace_shape e fuel
  refine ⟨⟨n, tail, htail, htr⟩, ?_, ?_, ?_, draws_bootstrap e⟩
  · intro pre post w h
    rw [htr] at h
    rcases check_split e n tail pre post w false htail h with
      ⟨m, k, -, -, -, -, hq⟩ | ⟨-, hr, -, -, -⟩
    · exact ⟨_, by simpa [frameBody] using hq, iterations_tail_head _ _ _ htail⟩
    · simp at hr
  · intro pre post mode first count h
    rw [htr] at h
    obtain ⟨m, k, -, hp, hm, hf, hc, hq⟩ := draw_split e n tail pre post mode first count htail h
    exact ⟨hm, hf, hc, ⟨_, hp⟩, _, hq⟩
  · simp [draws, frameBody, Call.isDraw, List.countP_cons]

/-- Check of C2 on `sampleEnv`: the first draw call of the run. -/
theorem one_draw_per_frame_witness :
    (GL_TRIANGLES = GL_TRIANGLES ∧ (0 : Int) = 0 ∧ (3 : Int) = 3
      ∧ (∃ pre', bootstrap sampleEnv ++ [glfwWindowShouldClose 4096 false]
          = pre' ++ [glfwWindowShouldClose sampleEnv.window false])
      ∧ ∃ rest, (frameBody 4096).tail ++ (iterations 4096 1
            ++ [glfwWindowShouldClose 4096 true, glfwTerminate])
          = glfwSwapBuffers sampleEnv.window :: glfwPollEvents :: rest) :=
  (one_draw_per_frame sampleEnv 5).2.2.1
    (bootstrap sampleEnv ++ [glfwWindowShouldClose 4096 false])
    ((frameBody 4096).tail ++ (iterations 4096 1
      ++ [glfwWindowShouldClose 4096 true, glfwTerminate]))
    GL_TRIANGLES 0 3 rfl

/-- C9. Shutdown.  (1) No run ever issues `glDeleteBuffers`,
`glDeleteVertexArrays`, `glDeleteShader`, `glDeleteProgram` or
`glfwDestroyWindow`.  (2) If a close-flag reading within the bound is `true`, the
trace is the bootstrap, a number of whole iterations, the `true` reading and then
`glfwTerminate`, which occurs exactly once and is the last call, and `main`
returns 0.  (3) `main` never returns anything but 0.  (4) While `main` has not
returned, `glfwTerminate` has not been called. -/
theorem shutdown_terminates_once (e : Env) (fuel : Nat) :
    (∀ c, c ∈ (main e fuel).trace → c.isRelease = false)
    ∧ ((∃ n, n < fuel ∧ e.shouldClose n = true) →
        (∃ n, (main e fuel).trace = bootstrap e ++ iterations e.window n
            ++ [glfwWindowShouldClose e.window true, glfwTerminate])
        ∧ (main e fuel).trace.count glfwTerminate = 1
        ∧ (main e fuel).trace.getLast? = some glfwTerminate
        ∧ (main e fuel).exitCode = some 0)
    ∧ (∀ code, (main e fuel).exitCode = some code → code = 0)
    ∧ ((main e fuel).exitCode = none → glfwTerminate ∉ (main e fuel).trace) := by
  refine ⟨?_, ?_, ?_, ?_⟩
  · intro c hc
    rcases mem_trace e fuel c hc with h | h | ⟨r, rfl⟩ | rfl
    · simp [bootstrap] at h
      rcases h with h | h | h | h | h | h | h | h | h | h | h | h | h | h | h | h | h | h | h
        | h | h | h | h | h | h | h | h | h | h <;> subst h <;> rfl
    · simp [frameBody] at h
      rcases h with h | h | h <;> subst h <;> rfl
    · rfl
    · rfl
  · rintro ⟨k, hk, hkt⟩
    rcases main_shape e fuel with ⟨n, -, -, -, hmain⟩ | ⟨hfalse, -⟩
    · have hnb : List.count glfwTerminate (bootstrap e) = 0 := by
        simp [bootstrap, List.count_cons]
      have hni : List.count glfwTerminate (iterations e.window n) = 0 := by
        rw [List.count_eq_zero]
        intro hmem
        rcases mem_iterations _ _ _ hmem with h | h
        · simp at h
        · simp [frameBody] at h
      refine ⟨⟨n, by simp [hmain]⟩, ?_, ?_, by simp [hmain]⟩
      · simp [hmain, List.count_append, hnb, hni, List.count_cons]
      · simp [hmain]
    · simp [hfalse k hk] at hkt
  · intro code h
    rcases main_shape e fuel with ⟨n, -, -, -, hmain⟩ | ⟨-, hmain⟩
    · simp [hmain] at h; exact h.symm
    · simp [hmain] at h
  · intro h hmem
    rcases main_shape e fuel with ⟨n, -, -, -, hmain⟩ | ⟨-, hmain⟩
    · simp [hmain] at h
    · rw [hmain] at hmem
      simp only [List.mem_append] at hmem
      rcases hmem with hm | hm
      · simp [bootstrap] at hm
      · rcases mem_iterations _ _ _ hm with h | h
        · simp at h
        · simp [frameBody] at h

/-- Check of C9 on `sampleEnv`, which closes at the third reading. -/
theorem shutdown_terminates_once_witness :
    (∃ n, (main sampleEnv 5).trace = bootstrap sampleEnv ++ iterations sampleEnv.window n
        ++ [glfwWindowShouldClose sampleEnv.window true, glfwTerminate])
    ∧ (main sampleEnv 5).trace.count glfwTerminate = 1
    ∧ (main sampleEnv 5).trace.getLast? = some glfwTerminate
    ∧ (main sampleEnv 5).exitCode = some 0 :=
  (shutdown_terminates_once sampleEnv 5).2.1 ⟨2, by decide, by decide⟩

/-! ## Lemmas on the library state -/

theorem glRun_append (s : GLState) (a b : List Call) :
    glRun s (a ++ b) = glRun (glRun s a) b := by
  simp [glRun, List.foldl_append]

theorem core_initial (f b : Pixel → Color) : (GLState.initial f b).core = Core.initial := rfl

theorem core_glStep (s : GLState) (c : Call) : (glStep s c).core = coreStep s.core c := by
  cases c <;> simp only [glStep, coreStep, GLState.core] <;>
    first
    | rfl
    | (split <;> first | rfl | (split <;> simp_all))

theorem core_glRun (t : List Call) : ∀ s : GLState, (glRun s t).core = t.foldl coreStep s.core := by
  induction t with
  | nil => intro s; rfl
  | cons c t ih =>
    intro s
    simp only [glRun, List.foldl_cons] at ih ⊢
    rw [ih, core_glStep]

theorem coreStep_iterations (w : Nat) (b : Core) :
    ∀ n, (iterations w n).foldl coreStep b = b := by
  intro n
  induction n with
  | zero => rfl
  | succ n ih => simpa [iterations, frameBody, coreStep] using ih

/-- The binding points after the bootstrap, whatever the names. -/
theorem bindings_bootstrap (e : Env) :
    ((bootstrap e).foldl coreStep Core.initial).context = e.window
      ∧ ((bootstrap e).foldl coreStep Core.initial).vertexArray = e.vao
      ∧ ((bootstrap e).foldl coreStep Core.initial).arrayBuffer = e.vbo
      ∧ ((bootstrap e).foldl coreStep Core.initial).program = e.shaderProgram := by
  simp [bootstrap, coreStep, Core.initial]

/-- A property of (history, call) that holds along the bootstrap and at the six
kinds of position after it holds at every call of every run. -/
theorem trace_always (e : Env) (fuel : Nat) (Q : List Call → Call → Prop)
    (hboot : Always Q [] (bootstrap e))
    (hloop : ∀ m,
      Q (bootstrap e ++ iterations e.window m) (glfwWindowShouldClose e.window false)
      ∧ Q (bootstrap e ++ iterations e.window m ++ [glfwWindowShouldClose e.window false])
          (glDrawArrays GL_TRIANGLES 0 3)
      ∧ Q (bootstrap e ++ iterations e.window m ++ [glfwWindowShouldClose e.window false,
            glDrawArrays GL_TRIANGLES 0 3]) (glfwSwapBuffers e.window)
      ∧ Q (bootstrap e ++ iterations e.window m ++ [glfwWindowShouldClose e.window false,
            glDrawArrays GL_TRIANGLES 0 3, glfwSwapBuffers e.window]) glfwPollEvents
      ∧ Q (bootstrap e ++ iterations e.window m) (glfwWindowShouldClose e.window true)
      ∧ Q (bootstrap e ++ iterations e.window m ++ [glfwWindowShouldClose e.window true])
          glfwTerminate) :
    ∀ pre c post, (main e fuel).trace = pre ++ c :: post → Q pre c := by
  intro pre c post h
  obtain ⟨n, tail, htail, htr⟩ := trace_shape e fuel
  rw [htr] at h
  rcases split_append _ _ _ _ _ h with ⟨post', h1, -⟩ | ⟨pre', rfl, h2⟩
  · simpa using always_split Q _ [] hboot pre c post' h1
  · rcases split_iterations _ _ _ _ _ _ h2 with ⟨m, k, hmk, hp, hc, hq⟩ | ⟨m, k, hmk, hp, hc, hq⟩
        | ⟨m, k, hmk, hp, hc, hq⟩ | ⟨m, k, hmk, hp, hc, hq⟩ | ⟨q, hp, hq⟩
    · subst hp hc; exact (hloop m).1
    · subst hp hc; simpa using (hloop m).2.1
    · subst hp hc; simpa using (hloop m).2.2.1
    · subst hp hc; simpa using (hloop m).2.2.2.1
    · rcases htail with rfl | rfl
      · simp at hq
      · match q, hq with
        | [], hq =>
          simp at hq
          obtain ⟨rfl, -⟩ := hq
          subst hp
          simpa using (hloop n).2.2.2.2.1
        | [x], hq =>
          simp at hq
          obtain ⟨rfl, rfl, -⟩ := hq
          subst hp
          simpa using (hloop n).2.2.2.2.2
        | x :: y :: q', hq => simp at hq

theorem countP_iterations (p : Call → Bool) (w : Nat)
    (h1 : p (glfwWindowShouldClose w false) = false)
    (h2 : p (glDrawArrays GL_TRIANGLES 0 3) = false)
    (h3 : p (glfwSwapBuffers w) = false) (h4 : p glfwPollEvents = false) :
    ∀ n, (iterations w n).countP p = 0 := by
  intro n
  induction n with
  | zero => simp [iterations]
  | succ n ih => simp [iterations, frameBody, List.countP_cons, h1, h2, h3, h4, ih]

/-- The attribute layout after the bootstrap, for a vertex array name other
than 0. -/
theorem layout_bootstrap (e : Env) (hvao : e.vao ≠ 0) :
    ((bootstrap e).foldl coreStep Core.initial).enabled (e.vao, toGLuint e.posAttrib) = true
      ∧ ((bootstrap e).foldl coreStep Core.initial).pointer (e.vao, toGLuint e.posAttrib)
        = some (positionPointer e.vbo) := by
  simp [bootstrap, coreStep, Core.initial, hvao, positionPointer, upd]

/-- `Core` at the positions of the loop is `Core` after the bootstrap. -/
theorem core_loop (e : Env) (m : Nat) (f b : Pixel → Color) :
    (glRun (GLState.initial f b) (bootstrap e ++ iterations e.window m)).core
        = (bootstrap e).foldl coreStep Core.initial
    ∧ (glRun (GLState.initial f b) (bootstrap e ++ iterations e.window m
          ++ [glfwWindowShouldClose e.window false])).core
        = (bootstrap e).foldl coreStep Core.initial
    ∧ (glRun (GLState.initial f b) (bootstrap e ++ iterations e.window m
          ++ [glfwWindowShouldClose e.window false, glDrawArrays GL_TRIANGLES 0 3])).core
        = (bootstrap e).foldl coreStep Core.initial
    ∧ (glRun (GLState.initial f b) (bootstrap e ++ iterations e.window m
          ++ [glfwWindowShouldClose e.window false, glDrawArrays GL_TRIANGLES 0 3,
            glfwSwapBuffers e.window])).core
        = (bootstrap e).foldl coreStep Core.initial
    ∧ (glRun (GLState.initial f b) (bootstrap e ++ iterations e.window m
          ++ [glfwWindowShouldClose e.window true])).core
        = (bootstrap e).foldl coreStep Core.initial := by
  simp [core_glRun, core_initial, List.foldl_append, coreStep_iterations, coreStep]

/-- C5. Bind before use.  Over the library state started from any initial colour
buffers, in every run: (1) the trace is the bootstrap followed only by close-flag
readings, loop-body calls and `glfwTerminate`, none of which is a bootstrap call;
(2) the bootstrap issues its entry points in the order of section 4.1; (3) every
OpenGL call comes after `glfwMakeContextCurrent(window)` and `glewInit()`, with
the window's context current; (4) `glBufferData` and (5) `glVertexAttribPointer`
are issued while `vbo` is bound to `GL_ARRAY_BUFFER` and `vao` is the bound vertex
array; (6) `glGetAttribLocation` comes after `glLinkProgram` of the same program;
(7) every draw call comes after the whole bootstrap and finds the context of the
window current, `vao` and `vbo` bound, `shaderProgram` in use and, when `vao` is a
vertex array name, the `position` attribute enabled and described as at line
105 over `vbo`; (8) `glUseProgram` is called exactly once, with `shaderProgram`. -/
theorem bind_before_use (e : Env) (fuel : Nat) (front0 back0 : Pixel → Color) :
    (∃ rest, (main e fuel).trace = bootstrap e ++ rest
        ∧ ∀ c, c ∈ rest → c ∉ bootstrap e
          ∧ (c.isCheck = true ∨ c ∈ frameBody e.window ∨ c = glfwTerminate))
    ∧ (bootstrap e).map Call.name = bootstrapOrder
    ∧ (∀ pre c post, (main e fuel).trace = pre ++ c :: post → c.isGL = true →
        glfwMakeContextCurrent e.window ∈ pre ∧ glewInit e.glewInitOk ∈ pre
        ∧ (glRun (GLState.initial front0 back0) pre).context = e.window)
    ∧ (∀ pre post target size data usage,
        (main e fuel).trace = pre ++ glBufferData target size data usage :: post →
        (glRun (GLState.initial front0 back0) pre).arrayBuffer = e.vbo
        ∧ (glRun (GLState.initial front0 back0) pre).vertexArray = e.vao)
    ∧ (∀ pre post index size type normalized stride pointer,
        (main e fuel).trace
          = pre ++ glVertexAttribPointer index size type normalized stride pointer :: post →
        (glRun (GLState.initial front0 back0) pre).arrayBuffer = e.vbo
        ∧ (glRun (GLState.initial front0 back0) pre).vertexArray = e.vao)
    ∧ (∀ pre post program name ret,
        (main e fuel).trace = pre ++ glGetAttribLocation program name ret :: post →
        glLinkProgram program ∈ pre)
    ∧ (∀ pre post mode first count,
        (main e fuel).trace = pre ++ glDrawArrays mode first count :: post →
        (∃ mid, pre = bootstrap e ++ mid)
        ∧ (glRun (GLState.initial front0 back0) pre).context = e.window
        ∧ (glRun (GLState.initial front0 back0) pre).vertexArray = e.vao
        ∧ (glRun (GLState.initial front0 back0) pre).arrayBuffer = e.vbo
        ∧ (glRun (GLState.initial front0 back0) pre).program = e.shaderProgram
        ∧ (e.vao ≠ 0 →
            (glRun (GLState.initial front0 back0) pre).enabled (e.vao, toGLuint e.posAttrib) = true
            ∧ (glRun (GLState.initial front0 back0) pre).pointer (e.vao, toGLuint e.posAttrib)
              = some (positionPointer e.vbo)))
    ∧ ((main e fuel).trace.countP Call.isUseProgram = 1
        ∧ glUseProgram e.shaderProgram ∈ (main e fuel).trace) := by
  obtain ⟨n, tail, htail, htr⟩ := trace_shape e fuel
  have hctx : ∀ pre, (glRun (GLState.initial front0 back0) pre).context
      = (pre.foldl coreStep Core.initial).context := fun pre =>
    congrArg Core.context (core_glRun pre (GLState.initial front0 back0))
  have hva : ∀ pre, (glRun (GLState.initial front0 back0) pre).vertexArray
      = (pre.foldl coreStep Core.initial).vertexArray := fun pre =>
    congrArg Core.vertexArray (core_glRun pre (GLState.initial front0 back0))
  have hab : ∀ pre, (glRun (GLState.initial front0 back0) pre).arrayBuffer
      = (pre.foldl coreStep Core.initial).arrayBuffer := fun pre =>
    congrArg Core.arrayBuffer (core_glRun pre (GLState.initial front0 back0))
  obtain ⟨b1, b2, b3, b4⟩ := bindings_bootstrap e
  have hmemb : ∀ (c : Call) (l : List Call), c ∈ bootstrap e → c ∈ bootstrap e ++ l :=
    fun c l h => List.mem_append_left l h
  refine ⟨?_, ?_, ?_, ?_, ?_, ?_, ?_, ?_⟩
  · refine ⟨_, htr, ?_⟩
    intro c hc
    have hkind : c.isCheck = true ∨ c ∈ frameBody e.window ∨ c = glfwTerminate := by
      simp only [List.mem_append] at hc
      rcases hc with hc | hc
      · rcases mem_iterations _ _ _ hc with h | h
        · left; rw [h]; rfl
        · right; left; exact h
      · rcases htail with rfl | rfl
        · simp at hc
        · simp at hc
          rcases hc with rfl | rfl
          · left; rfl
          · right; right; rfl
    refine ⟨?_, hkind⟩
    intro hb
    rcases hkind with h | h | h
    · simp [bootstrap] at hb
      rcases hb with hb | hb | hb | hb | hb | hb | hb | hb | hb | hb | hb | hb | hb | hb | hb
        | hb | hb | hb | hb | hb | hb | hb | hb | hb | hb | hb | hb | hb | hb <;>
        subst hb <;> simp [Call.isCheck] at h
    · simp [frameBody] at h
      rcases h with rfl | rfl | rfl <;> simp [bootstrap] at hb
    · subst h; simp [bootstrap] at hb
  · rfl
  · intro pre c post h hgl
    refine trace_always e fuel (fun pre c => c.isGL = true →
        glfwMakeContextCurrent e.window ∈ pre ∧ glewInit e.glewInitOk ∈ pre
        ∧ (glRun (GLState.initial front0 back0) pre).context = e.window) ?_ ?_ pre c post h hgl
    · simp only [hctx]
      simp [Always, bootstrap, Call.isGL, coreStep, Core.initial]
    · intro m
      obtain ⟨c1, c2, c3, c4, c5⟩ := core_loop e m front0 back0
      have hm1 : glfwMakeContextCurrent e.window ∈ bootstrap e := by simp [bootstrap]
      have hm2 : glewInit e.glewInitOk ∈ bootstrap e := by simp [bootstrap]
      refine ⟨?_, ?_, ?_, ?_, ?_, ?_⟩
      · intro hgl; simp [Call.isGL] at hgl
      · intro _
        refine ⟨?_, ?_, ?_⟩
        · simp only [List.append_assoc]; exact hmemb _ _ hm1
        · simp only [List.append_assoc]; exact hmemb _ _ hm2
        · have := congrArg Core.context c2
          simpa [GLState.core, b1] using this
      · intro hgl; simp [Call.isGL] at hgl
      · intro hgl; simp [Call.isGL] at hgl
      · intro hgl; simp [Call.isGL] at hgl
      · intro hgl; simp [Call.isGL] at hgl
  · intro pre post target size data usage h
    refine trace_always e fuel (fun pre c => ∀ target size data usage,
        c = glBufferData target size data usage →
        (glRun (GLState.initial front0 back0) pre).arrayBuffer = e.vbo
        ∧ (glRun (GLState.initial front0 back0) pre).vertexArray = e.vao) ?_ ?_
        pre _ post h target size data usage rfl
    · simp only [hva, hab]
      simp [Always, bootstrap, coreStep, Core.initial]
    · intro m
      simp
  · intro pre post index size type normalized stride pointer h
    refine trace_always e fuel (fun pre c => ∀ index size type normalized stride pointer,
        c = glVertexAttribPointer index size type normalized stride pointer →
        (glRun (GLState.initial front0 back0) pre).arrayBuffer = e.vbo
        ∧ (glRun (GLState.initial front0 back0) pre).vertexArray = e.vao) ?_ ?_
        pre _ post h index size type normalized stride pointer rfl
    · simp only [hva, hab]
      simp [Always, bootstrap, coreStep, Core.initial]
    · intro m
      simp
  · intro pre post program name ret h
    refine trace_always e fuel (fun pre c => ∀ program name ret,
        c = glGetAttribLocation program name ret → glLinkProgram program ∈ pre) ?_ ?_
        pre _ post h program name ret rfl
    · simp [Always, bootstrap]
    · intro m
      simp
  · intro pre post mode first count h
    rw [htr] at h
    obtain ⟨m, k, -, hp, -, -, -, -⟩ := draw_split e n tail pre post mode first count htail h
    obtain ⟨-, c2, -, -, -⟩ := core_loop e m front0 back0
    rw [← hp] at c2
    refine ⟨⟨_, by rw [hp, List.append_assoc]⟩, ?_, ?_, ?_, ?_, ?_⟩
    · have := congrArg Core.context c2; simpa [GLState.core, b1] using this
    · have := congrArg Core.vertexArray c2; simpa [GLState.core, b2] using this
    · have := congrArg Core.arrayBuffer c2; simpa [GLState.core, b3] using this
    · have := congrArg Core.program c2; simpa [GLState.core, b4] using this
    · intro hvao
      obtain ⟨l1, l2⟩ := layout_bootstrap e hvao
      constructor
      · have := congrArg (fun c => c.enabled (e.vao, toGLuint e.posAttrib)) c2
        simpa [GLState.core, l1] using this
      · have := congrArg (fun c => c.pointer (e.vao, toGLuint e.posAttrib)) c2
        simpa [GLState.core, l2] using this
  · rw [htr]
    have hi := countP_iterations Call.isUseProgram e.window rfl rfl rfl rfl n
    constructor
    · rcases htail with rfl | rfl
      · simp [List.countP_append, hi, bootstrap, List.countP_cons, Call.isUseProgram]
      · simp [List.countP_append, hi, bootstrap, List.countP_cons, Call.isUseProgram]
    · exact hmemb _ _ (by simp [bootstrap])

/-- Check of C5 on `sampleEnv`: the first draw call of the run. -/
theorem bind_before_use_witness :
    (∃ mid, bootstrap sampleEnv ++ [glfwWindowShouldClose 4096 false] = bootstrap sampleEnv ++ mid)
    ∧ (glRun (GLState.initial black black)
        (bootstrap sampleEnv ++ [glfwWindowShouldClose 4096 false])).context = sampleEnv.window
    ∧ (glRun (GLState.initial black black)
        (bootstrap sampleEnv ++ [glfwWindowShouldClose 4096 false])).vertexArray = sampleEnv.vao
    ∧ (glRun (GLState.initial black black)
        (bootstrap sampleEnv ++ [glfwWindowShouldClose 4096 false])).arrayBuffer = sampleEnv.vbo
    ∧ (glRun (GLState.initial black black)
        (bootstrap sampleEnv ++ [glfwWindowShouldClose 4096 false])).program
          = sampleEnv.shaderProgram
    ∧ (sampleEnv.vao ≠ 0 →
        (glRun (GLState.initial black black)
          (bootstrap sampleEnv ++ [glfwWindowShouldClose 4096 false])).enabled
            (sampleEnv.vao, toGLuint sampleEnv.posAttrib) = true
        ∧ (glRun (GLState.initial black black)
          (bootstrap sampleEnv ++ [glfwWindowShouldClose 4096 false])).pointer
            (sampleEnv.vao, toGLuint sampleEnv.posAttrib)
          = some (positionPointer sampleEnv.vbo)) :=
  (bind_before_use sampleEnv 5 black black).2.2.2.2.2.2.1
    (bootstrap sampleEnv ++ [glfwWindowShouldClose 4096 false])
    ((frameBody 4096).tail ++ (iterations 4096 1
      ++ [glfwWindowShouldClose 4096 true, glfwTerminate]))
    GL_TRIANGLES 0 3 rfl

/-- The data store after the bootstrap, for a buffer name other than 0. -/
theorem store_bootstrap (e : Env) (hvbo : e.vbo ≠ 0) :
    ((bootstrap e).foldl coreStep Core.initial).store e.vbo = some vertices
      ∧ ((bootstrap e).foldl coreStep Core.initial).usage e.vbo = some GL_STATIC_DRAW := by
  simp [bootstrap, coreStep, Core.initial, hvbo, upd]

/-- C3. The vertex buffer is written once.  In every run: (1) exactly one call
writes a buffer data store; (2) every `glBufferData` of the trace has target
`GL_ARRAY_BUFFER`, size 24 (six floats of 4 bytes), the six floats 0, 1/2, 1/2,
-1/2, -1/2, -1/2, that is the vertices (0, 1/2), (1/2, -1/2), (-1/2, -1/2) in
this order, and usage `GL_STATIC_DRAW`; (3) when `vbo` is a buffer name, the data
store of `vbo` holds exactly these floats, with that usage, before every call
issued after the upload, so at every draw call and up to `glfwTerminate`. -/
theorem vertex_buffer_written_once (e : Env) (fuel : Nat) (front0 back0 : Pixel → Color) :
    (main e fuel).trace.countP Call.isBufferWrite = 1
    ∧ (∀ pre post target size data usage,
        (main e fuel).trace = pre ++ glBufferData target size data usage :: post →
        target = GL_ARRAY_BUFFER ∧ size = 24 ∧ size = data.length * sizeofFloat
        ∧ data = [0, 1/2, 1/2, -1/2, -1/2, -1/2]
        ∧ pairs data = [(0, 1/2), (1/2, -1/2), (-1/2, -1/2)]
        ∧ usage = GL_STATIC_DRAW)
    ∧ (e.vbo ≠ 0 → ∀ pre c post, (main e fuel).trace = pre ++ c :: post →
        (c.isDraw = true
          ∨ glBufferData GL_ARRAY_BUFFER sizeofVertices vertices GL_STATIC_DRAW ∈ pre) →
        (glRun (GLState.initial front0 back0) pre).store e.vbo = some vertices
        ∧ (glRun (GLState.initial front0 back0) pre).usage e.vbo = some GL_STATIC_DRAW) := by
  obtain ⟨n, tail, htail, htr⟩ := trace_shape e fuel
  refine ⟨?_, ?_, ?_⟩
  · rw [htr]
    have hi := countP_iterations Call.isBufferWrite e.window rfl rfl rfl rfl n
    rcases htail with rfl | rfl
    · simp [List.countP_append, hi, bootstrap, List.countP_cons, Call.isBufferWrite]
    · simp [List.countP_append, hi, bootstrap, List.countP_cons, Call.isBufferWrite]
  · intro pre post target size data usage h
    refine trace_always e fuel (fun _ c => ∀ target size data usage,
        c = glBufferData target size data usage →
        target = GL_ARRAY_BUFFER ∧ size = 24 ∧ size = data.length * sizeofFloat
        ∧ data = [0, 1/2, 1/2, -1/2, -1/2, -1/2]
        ∧ pairs data = [(0, 1/2), (1/2, -1/2), (-1/2, -1/2)]
        ∧ usage = GL_STATIC_DRAW) ?_ ?_ pre _ post h target size data usage rfl
    · simp only [Always, bootstrap, sizeofVertices, vertices, sizeofFloat, reduceCtorEq,
        false_implies, implies_true, true_and, and_true, Call.glBufferData.injEq, and_imp]
      rintro _ _ _ _ rfl rfl rfl rfl
      refine ⟨rfl, rfl, rfl, rfl, ?_, rfl⟩
      simp [pairs]
    · intro m
      simp
  · intro hvbo pre c post h
    have hst : ∀ pre, (glRun (GLState.initial front0 back0) pre).store
        = (pre.foldl coreStep Core.initial).store := fun pre =>
      congrArg Core.store (core_glRun pre (GLState.initial front0 back0))
    have hus : ∀ pre, (glRun (GLState.initial front0 back0) pre).usage
        = (pre.foldl coreStep Core.initial).usage := fun pre =>
      congrArg Core.usage (core_glRun pre (GLState.initial front0 back0))
    refine trace_always e fuel (fun pre c =>
        (c.isDraw = true
          ∨ glBufferData GL_ARRAY_BUFFER sizeofVertices vertices GL_STATIC_DRAW ∈ pre) →
        (glRun (GLState.initial front0 back0) pre).store e.vbo = some vertices
        ∧ (glRun (GLState.initial front0 back0) pre).usage e.vbo = some GL_STATIC_DRAW)
        ?_ ?_ pre c post h
    · simp only [hst, hus]
      simp [Always, bootstrap, coreStep, Core.initial, Call.isDraw, hvbo, upd]
    · intro m
      obtain ⟨c1, c2, c3, c4, c5⟩ := core_loop e m front0 back0
      obtain ⟨s1, s2⟩ := store_bootstrap e hvbo
      have key : ∀ t, (glRun (GLState.initial front0 back0) t).core
          = (bootstrap e).foldl coreStep Core.initial →
          (glRun (GLState.initial front0 back0) t).store e.vbo = some vertices
          ∧ (glRun (GLState.initial front0 back0) t).usage e.vbo = some GL_STATIC_DRAW := by
        intro t ht
        constructor
        · have := congrArg (fun c => c.store e.vbo) ht
          simpa [GLState.core, s1] using this
        · have := congrArg (fun c => c.usage e.vbo) ht
          simpa [GLState.core, s2] using this
      exact ⟨fun _ => key _ c1, fun _ => key _ c2, fun _ => key _ c3, fun _ => key _ c4,
        fun _ => key _ c1, fun _ => key _ c5⟩

/-- Check of C3 on `sampleEnv`: the store at the first draw call of the run. -/
theorem vertex_buffer_written_once_witness :
    (glRun (GLState.initial black black)
        (bootstrap sampleEnv ++ [glfwWindowShouldClose 4096 false])).store sampleEnv.vbo
      = some vertices
    ∧ (glRun (GLState.initial black black)
        (bootstrap sampleEnv ++ [glfwWindowShouldClose 4096 false])).usage sampleEnv.vbo
      = some GL_STATIC_DRAW :=
  (vertex_buffer_written_once sampleEnv 5 black black).2.2 (by decide)
    (bootstrap sampleEnv ++ [glfwWindowShouldClose 4096 false])
    (glDrawArrays GL_TRIANGLES 0 3)
    ((frameBody 4096).tail ++ (iterations 4096 1
      ++ [glfwWindowShouldClose 4096 true, glfwTerminate]))
    rfl (Or.inl rfl)

/-- Bytes of the element of each vertex under the layout of line 105. -/
theorem element_bytes (buffer i : Nat) :
    elementOffset (positionPointer buffer) i = 8 * i
      ∧ elementEnd (positionPointer buffer) i = 8 * i + 8 := by
  have hoff : elementOffset (positionPointer buffer) i = 8 * i := by
    simp [elementOffset, effectiveStride, positionPointer, sizeofFloat]
    omega
  refine ⟨hoff, ?_⟩
  rw [elementEnd, hoff]
  simp [positionPointer, sizeofFloat]

/-- The three vertices read from the uploaded floats under the layout of line
105. -/
theorem fetch_vertices (buffer : Nat) :
    fetch (positionPointer buffer) vertices 0 = some corners.1
      ∧ fetch (positionPointer buffer) vertices 1 = some corners.2.1
      ∧ fetch (positionPointer buffer) vertices 2 = some corners.2.2 := by
  refine ⟨?_, ?_, ?_⟩
  · rw [fetch, (element_bytes buffer 0).1, (element_bytes buffer 0).2]
    simp [positionPointer, vertices, sizeofFloat, corners]
  · rw [fetch, (element_bytes buffer 1).1, (element_bytes buffer 1).2]
    simp [positionPointer, vertices, sizeofFloat, corners]
  · rw [fetch, (element_bytes buffer 2).1, (element_bytes buffer 2).2]
    simp [positionPointer, vertices, sizeofFloat, corners]

/-- C4. The attribute layout matches the buffer.  In every run: (1) the trace has
exactly one `glVertexAttribPointer`; (2) its arguments are the location of
`position` as a `GLuint`, 2 components, `GL_FLOAT`, `GL_FALSE`, stride 0 and
offset 0; for the attribute array so described over any buffer: (3) one element
takes 8 bytes and consecutive elements are 8 bytes apart, (4) for each vertex
index `i < 3` the element is bytes `[8 i, 8 i + 8)`, within the 24 bytes uploaded,
(5) the elements of two different vertices do not overlap, (6) every byte of the
buffer belongs to the element of one of the three vertices, (7) the values read
for vertices 0, 1, 2 from the uploaded floats are (0, 1/2), (1/2, -1/2),
(-1/2, -1/2); (8) when `vao` and `vbo` are object names, every draw call has
first 0 and count 3 and finds this description at the location of `position` in
the bound vertex array, over the buffer whose data store is the uploaded
floats. -/
theorem attribute_layout_matches_buffer (e : Env) (fuel : Nat) (front0 back0 : Pixel → Color)
    (buffer : Nat) :
    (main e fuel).trace.countP Call.isAttribPointer = 1
    ∧ (∀ pre post index size type normalized stride pointer,
        (main e fuel).trace
          = pre ++ glVertexAttribPointer index size type normalized stride pointer :: post →
        index = toGLuint e.posAttrib ∧ size = 2 ∧ type = GL_FLOAT ∧ normalized = GL_FALSE
        ∧ stride = 0 ∧ pointer = 0)
    ∧ (effectiveStride (positionPointer buffer) = 8 ∧ sizeofVertices = 24)
    ∧ (∀ i, i < 3 → elementOffset (positionPointer buffer) i = 8 * i
        ∧ elementEnd (positionPointer buffer) i = 8 * i + 8
        ∧ elementEnd (positionPointer buffer) i ≤ sizeofVertices)
    ∧ (∀ i j, i < j → j < 3 →
        elementEnd (positionPointer buffer) i ≤ elementOffset (positionPointer buffer) j)
    ∧ (∀ byte, byte < sizeofVertices → ∃ i, i < 3
        ∧ elementOffset (positionPointer buffer) i ≤ byte
        ∧ byte < elementEnd (positionPointer buffer) i)
    ∧ (fetch (positionPointer buffer) vertices 0 = some (0, 1/2)
        ∧ fetch (positionPointer buffer) vertices 1 = some (1/2, -1/2)
        ∧ fetch (positionPointer buffer) vertices 2 = some (-1/2, -1/2))
    ∧ (e.vao ≠ 0 → e.vbo ≠ 0 → ∀ pre post mode first count,
        (main e fuel).trace = pre ++ glDrawArrays mode first count :: post →
        first = 0 ∧ count = 3
        ∧ (glRun (GLState.initial front0 back0) pre).pointer
            ((glRun (GLState.initial front0 back0) pre).vertexArray, toGLuint e.posAttrib)
          = some (positionPointer e.vbo)
        ∧ (glRun (GLState.initial front0 back0) pre).store (positionPointer e.vbo).buffer
          = some vertices) := by
  obtain ⟨n, tail, htail, htr⟩ := trace_shape e fuel
  have hoff : ∀ i, elementOffset (positionPointer buffer) i = 8 * i :=
    fun i => (element_bytes buffer i).1
  have hend : ∀ i, elementEnd (positionPointer buffer) i = 8 * i + 8 :=
    fun i => (element_bytes buffer i).2
  have hsize : sizeofVertices = 24 := by simp [sizeofVertices, vertices, sizeofFloat]
  refine ⟨?_, ?_, ⟨?_, hsize⟩, ?_, ?_, ?_, ⟨?_, ?_, ?_⟩, ?_⟩
  · rw [htr]
    have hi := countP_iterations Call.isAttribPointer e.window rfl rfl rfl rfl n
    rcases htail with rfl | rfl
    · simp [List.countP_append, hi, bootstrap, List.countP_cons, Call.isAttribPointer]
    · simp [List.countP_append, hi, bootstrap, List.countP_cons, Call.isAttribPointer]
  · intro pre post index size type normalized stride pointer h
    refine trace_always e fuel (fun _ c => ∀ index size type normalized stride pointer,
        c = glVertexAttribPointer index size type normalized stride pointer →
        index = toGLuint e.posAttrib ∧ size = 2 ∧ type = GL_FLOAT ∧ normalized = GL_FALSE
        ∧ stride = 0 ∧ pointer = 0) ?_ ?_ pre _ post h index size type normalized stride
        pointer rfl
    · simp only [Always, bootstrap, reduceCtorEq, false_implies, implies_true, true_and,
        and_true, Call.glVertexAttribPointer.injEq, and_imp]
      rintro _ _ _ _ _ _ rfl rfl rfl rfl rfl rfl
      exact ⟨rfl, rfl, rfl, rfl, rfl, rfl⟩
    · intro m
      simp
  · simp [effectiveStride, positionPointer, sizeofFloat]
  · intro i hi
    refine ⟨hoff i, hend i, ?_⟩
    rw [hend, hsize]; omega
  · intro i j hij hj
    rw [hend, hoff]; omega
  · intro byte hb
    rw [hsize] at hb
    refine ⟨byte / 8, by omega, ?_, ?_⟩
    · rw [hoff]; omega
    · rw [hend]; omega
  · simpa [corners] using (fetch_vertices buffer).1
  · simpa [corners] using (fetch_vertices buffer).2.1
  · simpa [corners] using (fetch_vertices buffer).2.2
  · intro hvao hvbo pre post mode first count h
    rw [htr] at h
    obtain ⟨m, k, -, hp, -, hf, hc, -⟩ := draw_split e n tail pre post mode first count htail h
    obtain ⟨-, c2, -, -, -⟩ := core_loop e m front0 back0
    rw [← hp] at c2
    obtain ⟨-, b2, -, -⟩ := bindings_bootstrap e
    obtain ⟨-, l2⟩ := layout_bootstrap e hvao
    obtain ⟨s1, -⟩ := store_bootstrap e hvbo
    have hva : (glRun (GLState.initial front0 back0) pre).vertexArray = e.vao := by
      have := congrArg Core.vertexArray c2; simpa [GLState.core, b2] using this
    refine ⟨hf, hc, ?_, ?_⟩
    · rw [hva]
      have := congrArg (fun c => c.pointer (e.vao, toGLuint e.posAttrib)) c2
      simpa [GLState.core, l2] using this
    · have := congrArg (fun c => c.store e.vbo) c2
      simpa [GLState.core, s1, positionPointer] using this

/-- Check of C4 on `sampleEnv`: the first draw call of the run. -/
theorem attribute_layout_matches_buffer_witness :
    (0 : Int) = 0 ∧ (3 : Int) = 3
    ∧ (glRun (GLState.initial black black)
        (bootstrap sampleEnv ++ [glfwWindowShouldClose 4096 false])).pointer
          ((glRun (GLState.initial black black)
            (bootstrap sampleEnv ++ [glfwWindowShouldClose 4096 false])).vertexArray,
           toGLuint sampleEnv.posAttrib)
        = some (positionPointer sampleEnv.vbo)
    ∧ (glRun (GLState.initial black black)
        (bootstrap sampleEnv ++ [glfwWindowShouldClose 4096 false])).store
          (positionPointer sampleEnv.vbo).buffer
        = some vertices :=
  (attribute_layout_matches_buffer sampleEnv 5 black black 1).2.2.2.2.2.2.2
    (by decide) (by decide)
    (bootstrap sampleEnv ++ [glfwWindowShouldClose 4096 false])
    ((frameBody 4096).tail ++ (iterations 4096 1
      ++ [glfwWindowShouldClose 4096 true, glfwTerminate]))
    GL_TRIANGLES 0 3 rfl

theorem glfw_glStep (s : GLState) (c : Call) : (glStep s c).glfw = glfwStep s.glfw c := by
  cases c <;> simp only [glStep, glfwStep, GLState.glfw] <;>
    first
    | rfl
    | (split <;> first | rfl | (split <;> rfl))

theorem glfw_glRun (t : List Call) : ∀ s : GLState, (glRun s t).glfw = t.foldl glfwStep s.glfw := by
  induction t with
  | nil => intro s; rfl
  | cons c t ih =>
    intro s
    simp only [glRun, List.foldl_cons] at ih ⊢
    rw [ih, glfw_glStep]

theorem glfwStep_iterations (w : Nat) (g : Glfw) :
    ∀ n, (iterations w n).foldl glfwStep g = g := by
  intro n
  induction n with
  | zero => rfl
  | succ n ih => simpa [iterations, frameBody, glfwStep] using ih

theorem upd_hints_eq :
    upd (upd (upd (upd (upd (fun _ => none) GLFW_CONTEXT_VERSION_MAJOR (some (HintValue.lit 3)))
      GLFW_CONTEXT_VERSION_MINOR (some (HintValue.lit 3)))
      GLFW_OPENGL_PROFILE (some (HintValue.const GLFW_OPENGL_CORE_PROFILE)))
      GLFW_OPENGL_FORWARD_COMPAT (some (HintValue.const GL_TRUE)))
      GLFW_RESIZABLE (some (HintValue.const GL_FALSE)) = requestedHints := by
  funext h
  cases h <;> rfl

/-- `Glfw` after the bootstrap of a run in which GLFW initialised and the window
was created. -/
theorem glfw_bootstrap (e : Env) (hinit : e.glfwInitOk = true) (hwin : e.window ≠ 0) :
    (bootstrap e).foldl glfwStep Glfw.initial =
      { initialised := true, hints := requestedHints,
        windowSize := upd (fun _ => none) e.window (some (800, 600)),
        windowHints := upd (fun _ _ => none) e.window requestedHints } := by
  simp [bootstrap, glfwStep, Glfw.initial, hinit, hwin, upd_hints_eq]

/-- `Glfw` at the positions of the loop is `Glfw` after the bootstrap. -/
theorem glfw_loop (e : Env) (m : Nat) (f b : Pixel → Color) (extra : List Call)
    (hextra : ∀ g, extra.foldl glfwStep g = g) :
    (glRun (GLState.initial f b) (bootstrap e ++ iterations e.window m ++ extra)).glfw
      = (bootstrap e).foldl glfwStep Glfw.initial := by
  rw [glfw_glRun, List.foldl_append, List.foldl_append, hextra, glfwStep_iterations]
  rfl

theorem always_of_alwaysB (q : List Call → Call → Bool) (Q : List Call → Call → Prop)
    (hq : ∀ h c, q h c = true → Q h c) :
    ∀ rest hist, alwaysB q hist rest = true → Always Q hist rest := by
  intro rest
  induction rest with
  | nil => intro hist _; trivial
  | cons c rest ih =>
    intro hist h
    simp only [alwaysB, Bool.and_eq_true] at h
    exact ⟨hq _ _ h.1, ih _ h.2⟩

/-- Calls that set or reset hints come before the window is created. -/
theorem hints_before_window (e : Env) (fuel : Nat) :
    ∀ pre c post, (main e fuel).trace = pre ++ c :: post → c.isHintChange = true →
      ∀ c', c' ∈ pre → c'.isCreateWindow = false := by
  intro pre c post h hc
  refine trace_always e fuel (fun pre c => c.isHintChange = true →
      ∀ c', c' ∈ pre → c'.isCreateWindow = false) ?_ ?_ pre c post h hc
  · refine always_of_alwaysB
      (fun h c => !c.isHintChange || h.all (fun c' => !c'.isCreateWindow)) _ ?_ _ _ rfl
    intro h c hq hc c' hc'
    simp only [hc, Bool.not_true, Bool.false_or, List.all_eq_true, Bool.not_eq_true'] at hq
    exact hq c' hc'
  · intro m
    refine ⟨?_, ?_, ?_, ?_, ?_, ?_⟩ <;> intro hf <;> simp [Call.isHintChange] at hf

/-- The window of a successful run, from its creation on. -/
theorem window_after_creation (e : Env) (fuel : Nat) (front0 back0 : Pixel → Color) :
    e.glfwInitOk = true → e.window ≠ 0 →
      ∀ pre c post, (main e fuel).trace = pre ++ c :: post →
      (∃ c', c' ∈ pre ∧ c'.isCreateWindow = true) →
      (glRun (GLState.initial front0 back0) pre).windowSize e.window = some (800, 600)
      ∧ (∀ w, w ≠ e.window → (glRun (GLState.initial front0 back0) pre).windowSize w = none)
      ∧ (glRun (GLState.initial front0 back0) pre).windowHints e.window = requestedHints
      ∧ (glRun (GLState.initial front0 back0) pre).hints = requestedHints := by
  have hh : ∀ pre, (glRun (GLState.initial front0 back0) pre).hints
      = (pre.foldl glfwStep Glfw.initial).hints := fun pre =>
    congrArg Glfw.hints (glfw_glRun pre (GLState.initial front0 back0))
  have hws : ∀ pre, (glRun (GLState.initial front0 back0) pre).windowSize
      = (pre.foldl glfwStep Glfw.initial).windowSize := fun pre =>
    congrArg Glfw.windowSize (glfw_glRun pre (GLState.initial front0 back0))
  have hwh : ∀ pre, (glRun (GLState.initial front0 back0) pre).windowHints
      = (pre.foldl glfwStep Glfw.initial).windowHints := fun pre =>
    congrArg Glfw.windowHints (glfw_glRun pre (GLState.initial front0 back0))
  intro hinit hwin pre c post h
  refine trace_always e fuel (fun pre _ =>
      (∃ c', c' ∈ pre ∧ c'.isCreateWindow = true) →
      (glRun (GLState.initial front0 back0) pre).windowSize e.window = some (800, 600)
      ∧ (∀ w, w ≠ e.window → (glRun (GLState.initial front0 back0) pre).windowSize w = none)
      ∧ (glRun (GLState.initial front0 back0) pre).windowHints e.window = requestedHints
      ∧ (glRun (GLState.initial front0 back0) pre).hints = requestedHints) ?_ ?_ pre c post h
  · simp only [hh, hws, hwh]
    simp only [Always, bootstrap, List.nil_append, List.cons_append, List.foldl_cons,
      List.foldl_nil, glfwStep, Glfw.initial, hinit, hwin, List.mem_cons, exists_eq_or_imp,
      Call.isCreateWindow, List.not_mem_nil, false_and, exists_false, false_implies,
      Bool.false_eq_true, false_or, and_true, true_and, true_or, true_implies, ite_true,
      ne_eq, not_false_eq_true, upd_hints_eq, and_self]
    simp [upd]
  · intro m
    have hb := glfw_bootstrap e hinit hwin
    have key : ∀ t, (glRun (GLState.initial front0 back0) t).glfw
        = (bootstrap e).foldl glfwStep Glfw.initial →
        (glRun (GLState.initial front0 back0) t).windowSize e.window = some (800, 600)
        ∧ (∀ w, w ≠ e.window →
            (glRun (GLState.initial front0 back0) t).windowSize w = none)
        ∧ (glRun (GLState.initial front0 back0) t).windowHints e.window = requestedHints
        ∧ (glRun (GLState.initial front0 back0) t).hints = requestedHints := by
      intro t ht
      rw [hb] at ht
      refine ⟨?_, ?_, ?_, ?_⟩
      · have := congrArg (fun g => g.windowSize e.window) ht
        simpa [GLState.glfw, upd] using this
      · intro w hw
        have := congrArg (fun g => g.windowSize w) ht
        simpa [GLState.glfw, upd, hw] using this
      · have := congrArg (fun g => g.windowHints e.window) ht
        simpa [GLState.glfw, upd] using this
      · have := congrArg (fun g => g.hints) ht
        simpa [GLState.glfw] using this
    have k0 := key _ (by simpa using glfw_loop e m front0 back0 [] (fun _ => rfl))
    have k1 := key _ (glfw_loop e m front0 back0 [glfwWindowShouldClose e.window false]
      (fun _ => rfl))
    have k2 := key _ (glfw_loop e m front0 back0 [glfwWindowShouldClose e.window false,
      glDrawArrays GL_TRIANGLES 0 3] (fun _ => rfl))
    have k3 := key _ (glfw_loop e m front0 back0 [glfwWindowShouldClose e.window false,
      glDrawArrays GL_TRIANGLES 0 3, glfwSwapBuffers e.window] (fun _ => rfl))
    have k4 := key _ (glfw_loop e m front0 back0 [glfwWindowShouldClose e.window true]
      (fun _ => rfl))
    exact ⟨fun _ => k0, fun _ => k1, fun _ => k2, fun _ => k3, fun _ => k0, fun _ => k4⟩

/-- C6. One window.  In every run: (1) `glfwCreateWindow` is called exactly once;
(2) its arguments are 800, 600, "OpenGL", a null monitor (windowed mode) and a
null share, and its result is the window of the run; (3) every call that sets or
resets hints, so each of the five `glfwWindowHint`, comes before it and none
after it; (4) the five hints are set, to 3, 3, `GLFW_OPENGL_CORE_PROFILE`,
`GL_TRUE` and `GL_FALSE`; (5) in a run in which GLFW initialised, the hints in
force at the call are context version major 3 and minor 3, core profile,
forward-compatible `GL_TRUE`, resizable `GL_FALSE`, and the defaults otherwise;
(6) in a successful run (GLFW initialised, window not null), before every call
issued after the creation, so up to `glfwTerminate`, exactly one window exists,
the one returned, of size 800 by 600, created with these hints, and the hints in
force are still the same. -/
theorem one_window_created (e : Env) (fuel : Nat) (front0 back0 : Pixel → Color) :
    (main e fuel).trace.countP Call.isCreateWindow = 1
    ∧ (∀ pre post width height title monitor share ret,
        (main e fuel).trace
          = pre ++ glfwCreateWindow width height title monitor share ret :: post →
        width = 800 ∧ height = 600 ∧ title = "OpenGL" ∧ monitor = 0 ∧ share = 0
        ∧ ret = e.window
        ∧ (e.glfwInitOk = true →
            (glRun (GLState.initial front0 back0) pre).hints = requestedHints))
    ∧ (∀ pre c post, (main e fuel).trace = pre ++ c :: post → c.isHintChange = true →
        ∀ c', c' ∈ pre → c'.isCreateWindow = false)
    ∧ (glfwWindowHint GLFW_CONTEXT_VERSION_MAJOR (.lit 3) ∈ (main e fuel).trace
        ∧ glfwWindowHint GLFW_CONTEXT_VERSION_MINOR (.lit 3) ∈ (main e fuel).trace
        ∧ glfwWindowHint GLFW_OPENGL_PROFILE (.const GLFW_OPENGL_CORE_PROFILE)
            ∈ (main e fuel).trace
        ∧ glfwWindowHint GLFW_OPENGL_FORWARD_COMPAT (.const GL_TRUE) ∈ (main e fuel).trace
        ∧ glfwWindowHint GLFW_RESIZABLE (.const GL_FALSE) ∈ (main e fuel).trace)
    ∧ (requestedHints GLFW_CONTEXT_VERSION_MAJOR = some (.lit 3)
        ∧ requestedHints GLFW_CONTEXT_VERSION_MINOR = some (.lit 3)
        ∧ requestedHints GLFW_OPENGL_PROFILE = some (.const GLFW_OPENGL_CORE_PROFILE)
        ∧ requestedHints GLFW_OPENGL_FORWARD_COMPAT = some (.const GL_TRUE)
        ∧ requestedHints GLFW_RESIZABLE = some (.const GL_FALSE))
    ∧ (e.glfwInitOk = true → e.window ≠ 0 →
        ∀ pre c post, (main e fuel).trace = pre ++ c :: post →
        (∃ c', c' ∈ pre ∧ c'.isCreateWindow = true) →
        (glRun (GLState.initial front0 back0) pre).windowSize e.window = some (800, 600)
        ∧ (∀ w, w ≠ e.window → (glRun (GLState.initial front0 back0) pre).windowSize w = none)
        ∧ (glRun (GLState.initial front0 back0) pre).windowHints e.window = requestedHints
        ∧ (glRun (GLState.initial front0 back0) pre).hints = requestedHints) := by
  obtain ⟨n, tail, htail, htr⟩ := trace_shape e fuel
  have hh : ∀ pre, (glRun (GLState.initial front0 back0) pre).hints
      = (pre.foldl glfwStep Glfw.initial).hints := fun pre =>
    congrArg Glfw.hints (glfw_glRun pre (GLState.initial front0 back0))
  have hws : ∀ pre, (glRun (GLState.initial front0 back0) pre).windowSize
      = (pre.foldl glfwStep Glfw.initial).windowSize := fun pre =>
    congrArg Glfw.windowSize (glfw_glRun pre (GLState.initial front0 back0))
  have hwh : ∀ pre, (glRun (GLState.initial front0 back0) pre).windowHints
      = (pre.foldl glfwStep Glfw.initial).windowHints := fun pre =>
    congrArg Glfw.windowHints (glfw_glRun pre (GLState.initial front0 back0))
  have hmemb : ∀ (c : Call), c ∈ bootstrap e → c ∈ (main e fuel).trace := by
    intro c hc
    rw [htr]; exact List.mem_append_left _ hc
  refine ⟨?_, ?_, ?_, ?_, ⟨rfl, rfl, rfl, rfl, rfl⟩, ?_⟩
  · rw [htr]
    have hi := countP_iterations Call.isCreateWindow e.window rfl rfl rfl rfl n
    rcases htail with rfl | rfl
    · simp [List.countP_append, hi, bootstrap, List.countP_cons, Call.isCreateWindow]
    · simp [List.countP_append, hi, bootstrap, List.countP_cons, Call.isCreateWindow]
  · intro pre post width height title monitor share ret h
    refine trace_always e fuel (fun pre c => ∀ width height title monitor share ret,
        c = glfwCreateWindow width height title monitor share ret →
        width = 800 ∧ height = 600 ∧ title = "OpenGL" ∧ monitor = 0 ∧ share = 0
        ∧ ret = e.window
        ∧ (e.glfwInitOk = true →
            (glRun (GLState.initial front0 back0) pre).hints = requestedHints)) ?_ ?_
        pre _ post h width height title monitor share ret rfl
    · simp only [hh]
      simp only [Always, bootstrap, reduceCtorEq, false_implies, implies_true, true_and,
        and_true, Call.glfwCreateWindow.injEq, and_imp]
      rintro _ _ _ _ _ _ rfl rfl rfl rfl rfl rfl
      refine ⟨rfl, rfl, rfl, rfl, rfl, rfl, ?_⟩
      intro hinit
      simp [glfwStep, Glfw.initial, hinit, upd_hints_eq]
    · intro m
      simp
  · exact hints_before_window e fuel
  · refine ⟨?_, ?_, ?_, ?_, ?_⟩ <;> exact hmemb _ (by simp [bootstrap])
  · exact window_after_creation e fuel front0 back0

/-- Check of C6 on `sampleEnv`: the window at the first draw call of the run. -/
theorem one_window_created_witness :
    (glRun (GLState.initial black black)
        (bootstrap sampleEnv ++ [glfwWindowShouldClose 4096 false])).windowSize sampleEnv.window
      = some (800, 600)
    ∧ (∀ w, w ≠ sampleEnv.window →
        (glRun (GLState.initial black black)
          (bootstrap sampleEnv ++ [glfwWindowShouldClose 4096 false])).windowSize w = none)
    ∧ (glRun (GLState.initial black black)
        (bootstrap sampleEnv ++ [glfwWindowShouldClose 4096 false])).windowHints sampleEnv.window
      = requestedHints
    ∧ (glRun (GLState.initial black black)
        (bootstrap sampleEnv ++ [glfwWindowShouldClose 4096 false])).hints = requestedHints :=
  (one_window_created sampleEnv 5 black black).2.2.2.2.2 rfl (by decide)
    (bootstrap sampleEnv ++ [glfwWindowShouldClose 4096 false])
    (glDrawArrays GL_TRIANGLES 0 3)
    ((frameBody 4096).tail ++ (iterations 4096 1
      ++ [glfwWindowShouldClose 4096 true, glfwTerminate]))
    rfl ⟨glfwCreateWindow 800 600 "OpenGL" 0 0 4096, by simp [bootstrap, sampleEnv], rfl⟩

/-- C8. Close before the first frame.  A close signal sent before any frame is
rendered is seen by the first reading of the close flag or, having gone through
the first `glfwPollEvents`, by the second.  In every such run followed for at
least two readings: at most one frame is drawn, as many frames are presented as
drawn, `main` returns 0, `glfwTerminate` is called exactly once and is the last
call, and after it the library state is the initial one: no window, no current
context, no buffer data store, no vertex array, no shader, no program is left. -/
theorem close_before_first_frame (e : Env) (fuel : Nat) (front0 back0 : Pixel → Color)
    (hclose : e.shouldClose 0 = true ∨ e.shouldClose 1 = true) (hfuel : 2 ≤ fuel) :
    draws (main e fuel).trace ≤ 1
    ∧ swaps (main e fuel).trace = draws (main e fuel).trace
    ∧ (draws (main e fuel).trace = 0 ↔ e.shouldClose 0 = true)
    ∧ (main e fuel).exitCode = some 0
    ∧ (main e fuel).trace.count glfwTerminate = 1
    ∧ (main e fuel).trace.getLast? = some glfwTerminate
    ∧ ∃ f b, glRun (GLState.initial front0 back0) (main e fuel).trace = GLState.initial f b := by
  have hnb : List.count glfwTerminate (bootstrap e) = 0 := by
    simp [bootstrap, List.count_cons]
  have hfinal : ∀ t, ∃ f b,
      glRun (GLState.initial front0 back0) (t ++ [glfwTerminate]) = GLState.initial f b := by
    intro t
    exact ⟨_, _, by rw [glRun_append]; rfl⟩
  obtain ⟨fuel, rfl⟩ : ∃ k, fuel = k + 2 := ⟨fuel - 2, by omega⟩
  cases h0 : e.shouldClose 0
  · have h1 : e.shouldClose 1 = true := by
      rcases hclose with h | h
      · rw [h0] at h; cases h
      · exact h
    have hm : main e (fuel + 2) =
        { trace := bootstrap e ++ (iterations e.window 1
            ++ [glfwWindowShouldClose e.window true]) ++ [glfwTerminate],
          exitCode := some 0 } := by
      simp [main, frameLoop, h0, h1, iterations]
    rw [hm]
    refine ⟨?_, ?_, ?_, rfl, ?_, ?_, hfinal _⟩
    · simp [draws_append, draws_bootstrap]
      simp [draws, Call.isDraw, List.countP_cons]
    · simp [draws_append, draws_bootstrap, swaps_append, swaps_bootstrap]
      simp [draws, swaps, Call.isDraw, Call.isSwap, List.countP_cons]
    · simp [draws_append, draws_bootstrap]
    · simp [List.count_append, hnb, iterations, frameBody, List.count_cons]
    · simp
  · have hm : main e (fuel + 2) =
        { trace := bootstrap e ++ [glfwWindowShouldClose e.window true] ++ [glfwTerminate],
          exitCode := some 0 } := by
      simp [main, frameLoop, h0]
    rw [hm]
    refine ⟨?_, ?_, ?_, rfl, ?_, ?_, hfinal _⟩
    · simp [draws_append, draws_bootstrap]
      simp [draws, Call.isDraw, List.countP_cons]
    · simp [draws_append, draws_bootstrap, swaps_append, swaps_bootstrap]
      simp [draws, swaps, Call.isDraw, Call.isSwap, List.countP_cons]
    · simp [draws_append, draws_bootstrap]
      simp [draws, Call.isDraw, List.countP_cons]
    · simp [List.count_append, hnb, List.count_cons]
    · simp

/-- Check of C8 on the two kinds of run it speaks of: the close flag set at the
first reading (no frame) and set after the first poll (one frame). -/
theorem close_before_first_frame_witness :
    (draws (main closedAtOnceEnv 3).trace ≤ 1
      ∧ swaps (main closedAtOnceEnv 3).trace = draws (main closedAtOnceEnv 3).trace
      ∧ (draws (main closedAtOnceEnv 3).trace = 0 ↔ closedAtOnceEnv.shouldClose 0 = true)
      ∧ (main closedAtOnceEnv 3).exitCode = some 0
      ∧ (main closedAtOnceEnv 3).trace.count glfwTerminate = 1
      ∧ (main closedAtOnceEnv 3).trace.getLast? = some glfwTerminate
      ∧ ∃ f b, glRun (GLState.initial black black) (main closedAtOnceEnv 3).trace
          = GLState.initial f b)
    ∧ (draws (main closedAfterPollEnv 3).trace ≤ 1
      ∧ swaps (main closedAfterPollEnv 3).trace = draws (main closedAfterPollEnv 3).trace
      ∧ (draws (main closedAfterPollEnv 3).trace = 0 ↔ closedAfterPollEnv.shouldClose 0 = true)
      ∧ (main closedAfterPollEnv 3).exitCode = some 0
      ∧ (main closedAfterPollEnv 3).trace.count glfwTerminate = 1
      ∧ (main closedAfterPollEnv 3).trace.getLast? = some glfwTerminate
      ∧ ∃ f b, glRun (GLState.initial black black) (main closedAfterPollEnv 3).trace
          = GLState.initial f b) :=
  ⟨close_before_first_frame closedAtOnceEnv 3 black black (Or.inl rfl) (by decide),
   close_before_first_frame closedAfterPollEnv 3 black black (Or.inr rfl) (by decide)⟩

/-! ## Lemmas on rendering -/

/-- What a draw call finds after the bootstrap of a successful run. -/
theorem drawInputs_bootstrap (e : Env) (he : e.successful) (f b : Pixel → Color) :
    drawInputs (glRun (GLState.initial f b) (bootstrap e))
        = some ((800, 600), vertexMain, fragmentMain, positionPointer e.vbo, vertices)
    ∧ (glRun (GLState.initial f b) (bootstrap e)).windowSize e.window = some (800, 600)
    ∧ (glRun (GLState.initial f b) (bootstrap e)).back = b
    ∧ (glRun (GLState.initial f b) (bootstrap e)).front = f := by
  obtain ⟨h1, h2, h3, h4, h5, h6, h7, h8, h9, h10⟩ := he
  have h8' : e.fragmentShader ≠ e.vertexShader := fun h => h8 h.symm
  simp [glRun, bootstrap, glStep, GLState.initial, h1, h2, h4, h5, h6, h7, h8, h8', h9, upd,
    drawInputs, linkTexts, vertexStage, fragmentStage, h10, positionPointer]

theorem assemble_vertices (buffer : Nat) :
    assemble vertexMain (positionPointer buffer) vertices 0 1
      = [(vertexMain corners.1, vertexMain corners.2.1, vertexMain corners.2.2)] := by
  obtain ⟨f0, f1, f2⟩ := fetch_vertices buffer
  simp [assemble, f0, f1, f2]

/-- The draw call of line 112 turns the back buffer into `paint` of it. -/
theorem drawArrays_paint (s : GLState) (buffer : Nat)
    (h : drawInputs s
      = some ((800, 600), vertexMain, fragmentMain, positionPointer buffer, vertices)) :
    drawArrays s GL_TRIANGLES 0 3 = paint s.back := by
  funext p
  simp [drawArrays, h, assemble_vertices, paint, triangleCovers]

/-- One iteration of the loop: draw into the back buffer, then exchange the
buffers. -/
theorem frame_step (s : GLState) (w buffer : Nat) (hw : w ≠ 0)
    (hws : s.windowSize w = some (800, 600))
    (h : drawInputs s
      = some ((800, 600), vertexMain, fragmentMain, positionPointer buffer, vertices)) :
    glRun s (glfwWindowShouldClose w false :: frameBody w)
      = { s with back := s.front, front := paint s.back } := by
  simp [glRun, frameBody, glStep, hw, hws, drawArrays_paint s buffer h]

/-- The colour buffers after `n` iterations. -/
theorem render_iterations (w buffer : Nat) (hw : w ≠ 0) :
    ∀ n (s : GLState), s.windowSize w = some (800, 600) →
      drawInputs s
        = some ((800, 600), vertexMain, fragmentMain, positionPointer buffer, vertices) →
      (∀ p, triangleCovers p = false →
          (glRun s (iterations w n)).front p = (if n % 2 = 1 then s.back p else s.front p)
          ∧ (glRun s (iterations w n)).back p = (if n % 2 = 1 then s.front p else s.back p))
      ∧ (1 ≤ n → ∀ p, triangleCovers p = true →
          (glRun s (iterations w n)).front p = fragmentMain) := by
  intro n
  induction n with
  | zero =>
    intro s _ _
    exact ⟨fun p _ => by simp [iterations, glRun], fun h => by omega⟩
  | succ n ih =>
    intro s hws hD
    have hstep := frame_step s w buffer hw hws hD
    have hrun : glRun s (iterations w (n + 1))
        = glRun { s with back := s.front, front := paint s.back } (iterations w n) := by
      rw [← hstep, ← glRun_append]
      simp [iterations]
    obtain ⟨ih1, ih2⟩ := ih { s with back := s.front, front := paint s.back } hws hD
    rw [hrun]
    constructor
    · intro p hp
      obtain ⟨i1, i2⟩ := ih1 p hp
      rw [i1, i2]
      have hpaint : paint s.back p = s.back p := by simp [paint, hp]
      rcases Nat.mod_two_eq_zero_or_one n with h0 | h1
      · have : (n + 1) % 2 = 1 := by omega
        simp [h0, this, hpaint]
      · have : (n + 1) % 2 = 0 := by omega
        simp [h1, this, hpaint]
    · intro _ p hp
      cases n with
      | zero => simp [iterations, glRun, paint, hp]
      | succ n => exact ih2 (by omega) p hp

theorem iterations_add (w : Nat) (a b : Nat) :
    iterations w (a + b) = iterations w a ++ iterations w b := by
  induction a with
  | zero => simp [iterations]
  | succ a ih =>
    rw [show a + 1 + b = (a + b) + 1 by omega]
    simp [iterations, ih]

/-- A run whose first `n` readings are `false` starts with the bootstrap and `n`
iterations. -/
theorem trace_starts (e : Env) (n fuel : Nat) (hn : n ≤ fuel)
    (hrun : ∀ j, j < n → e.shouldClose j = false) :
    ∃ rest, (main e fuel).trace = bootstrap e ++ iterations e.window n ++ rest := by
  rcases main_shape e fuel with ⟨k, hk, hfalse, htrue, hmain⟩ | ⟨hfalse, hmain⟩
  · have hle : n ≤ k := by
      by_contra hlt
      have := hrun k (by omega)
      simp [this] at htrue
    obtain ⟨d, rfl⟩ : ∃ d, k = n + d := ⟨k - n, by omega⟩
    exact ⟨_, by simp [hmain, iterations_add]; rfl⟩
  · obtain ⟨d, rfl⟩ : ∃ d, fuel = n + d := ⟨fuel - n, by omega⟩
    exact ⟨_, by simp [hmain, iterations_add]; rfl⟩

theorem centroid_covered : triangleCovers centroidPixel = true := by
  simp [triangleCovers, covers, ndc, vertexMain, corners, inside, edge, pixelCentre,
    centroidPixel]
  norm_num

theorem corner_not_covered : triangleCovers (0, 0) = false := by
  simp [triangleCovers, covers, ndc, vertexMain, corners, inside, edge, pixelCentre]
  norm_num

/-- No pixel centre of the 800 by 600 window lies on an edge of the triangle, so
the rule for pixels on an edge plays no part in what the draw call covers. -/
theorem centre_off_edges (p : Pixel) :
    edge corners.1 corners.2.1 (pixelCentre (800, 600) p) ≠ 0
      ∧ edge corners.2.1 corners.2.2 (pixelCentre (800, 600) p) ≠ 0
      ∧ edge corners.2.2 corners.1 (pixelCentre (800, 600) p) ≠ 0 := by
  obtain ⟨i, j⟩ := p
  refine ⟨?_, ?_, ?_⟩
  · intro h
    simp [edge, corners, pixelCentre] at h
    have h2 : (4 * (j : ℚ) + 6 * (i : ℚ) + 5 = 4200) := by linarith
    have h3 : 4 * j + 6 * i + 5 = 4200 := by exact_mod_cast h2
    omega
  · intro h
    simp [edge, corners, pixelCentre] at h
    rcases h with h | h
    · norm_num at h
    · have h2 : (2 * (j : ℚ) + 1 = 300) := by linarith
      have h3 : 2 * j + 1 = 300 := by exact_mod_cast h2
      omega
  · intro h
    simp [edge, corners, pixelCentre] at h
    have h2 : (6 * (i : ℚ) + 3 = 4 * (j : ℚ) + 2 + 600) := by linarith
    have h3 : 6 * i + 3 = 4 * j + 2 + 600 := by exact_mod_cast h2
    omega

/-- C10. The triangle on screen.  Take a successful run whose first `n` close-flag
readings are `false`, with `n` at least 1, and any initial contents of the two
colour buffers.  (1) Every such run, followed for at least `n` readings, starts
with the bootstrap and `n` iterations.  In the library state after these calls:
(2) the buffer on display is opaque white (1, 1, 1, 1) at the centroid pixel and
(3) at every pixel that the triangle covers; (4) at every pixel that the triangle
does not cover, both colour buffers still hold a value they held before the
first call (the buffers having been exchanged `n` times), (5) so that, when both
buffers started from one background, that background is still what is on
display there; (6) the lower left pixel of the window is such a pixel.  This
rests on: (7) the vertex stage maps `(x, y)` to `(x, y, 0, 1)`; (8) the fragment
stage yields (1, 1, 1, 1); (9) the centroid of the uploaded vertices is
(0, -1/6), strictly inside the triangle and inside the viewport, and falls in the
pixel of column 400 and row 250 of the 800 by 600 window, which the triangle
covers; (10) no run ever issues `glClear`; (11) no pixel centre lies on an edge
of the triangle, so which pixels are covered does not depend on how pixels on an
edge are treated. -/
theorem triangle_rendered (e : Env) (he : e.successful) (front0 back0 : Pixel → Color)
    (n : Nat) (hn : 1 ≤ n) (hrun : ∀ j, j < n → e.shouldClose j = false) :
    (∀ fuel, n ≤ fuel →
        ∃ rest, (main e fuel).trace = bootstrap e ++ iterations e.window n ++ rest)
    ∧ (glRun (GLState.initial front0 back0) (bootstrap e ++ iterations e.window n)).front
        centroidPixel = (1, 1, 1, 1)
    ∧ (∀ p, triangleCovers p = true →
        (glRun (GLState.initial front0 back0) (bootstrap e ++ iterations e.window n)).front p
          = (1, 1, 1, 1))
    ∧ (∀ p, triangleCovers p = false →
        (glRun (GLState.initial front0 back0) (bootstrap e ++ iterations e.window n)).front p
          = (if n % 2 = 1 then back0 p else front0 p)
        ∧ (glRun (GLState.initial front0 back0) (bootstrap e ++ iterations e.window n)).back p
          = (if n % 2 = 1 then front0 p else back0 p))
    ∧ (∀ p background, triangleCovers p = false → front0 p = background → back0 p = background →
        (glRun (GLState.initial front0 back0) (bootstrap e ++ iterations e.window n)).front p
          = background)
    ∧ triangleCovers (0, 0) = false
    ∧ (∀ x y, vertexMain (x, y) = (x, y, 0, 1))
    ∧ fragmentMain = (1, 1, 1, 1)
    ∧ (centroid = (0, -1/6)
        ∧ inside corners.1 corners.2.1 corners.2.2 centroid = true
        ∧ (-1 < centroid.1 ∧ centroid.1 < 1 ∧ -1 < centroid.2 ∧ centroid.2 < 1)
        ∧ pixelOf (800, 600) centroid = centroidPixel
        ∧ centroidPixel.1 < 800 ∧ centroidPixel.2 < 600
        ∧ triangleCovers centroidPixel = true)
    ∧ (∀ fuel c, c ∈ (main e fuel).trace → c.isClear = false)
    ∧ (∀ p, edge corners.1 corners.2.1 (pixelCentre (800, 600) p) ≠ 0
        ∧ edge corners.2.1 corners.2.2 (pixelCentre (800, 600) p) ≠ 0
        ∧ edge corners.2.2 corners.1 (pixelCentre (800, 600) p) ≠ 0) := by
  obtain ⟨hD, hws, hback, hfront⟩ := drawInputs_bootstrap e he front0 back0
  have hw : e.window ≠ 0 := he.2.1
  obtain ⟨r1, r2⟩ := render_iterations e.window e.vbo hw n _ hws hD
  rw [hback, hfront] at r1
  have hcov : ∀ p, triangleCovers p = true →
      (glRun (GLState.initial front0 back0) (bootstrap e ++ iterations e.window n)).front p
        = (1, 1, 1, 1) := by
    intro p hp
    rw [glRun_append]
    exact r2 hn p hp
  have hunc : ∀ p, triangleCovers p = false →
      (glRun (GLState.initial front0 back0) (bootstrap e ++ iterations e.window n)).front p
        = (if n % 2 = 1 then back0 p else front0 p)
      ∧ (glRun (GLState.initial front0 back0) (bootstrap e ++ iterations e.window n)).back p
        = (if n % 2 = 1 then front0 p else back0 p) := by
    intro p hp
    rw [glRun_append]
    exact r1 p hp
  refine ⟨fun fuel hf => trace_starts e n fuel hf hrun, hcov _ centroid_covered, hcov, hunc,
    ?_, corner_not_covered, fun _ _ => rfl, rfl, ⟨?_, ?_, ?_, ?_, ?_, ?_, centroid_covered⟩, ?_,
    centre_off_edges⟩
  · intro p background hp hf hb
    rw [(hunc p hp).1, hf, hb]
    simp
  · simp [centroid, corners]
    norm_num
  · simp [inside, edge, centroid, corners]
    norm_num
  · simp [centroid, corners]
    norm_num
  · simp [pixelOf, centroid, corners, centroidPixel]
    norm_num
    exact ⟨rfl, rfl⟩
  · simp [centroidPixel]
  · simp [centroidPixel]
  · intro fuel c hc
    rcases mem_trace e fuel c hc with h | h | ⟨r, rfl⟩ | rfl
    · simp [bootstrap] at h
      rcases h with h | h | h | h | h | h | h | h | h | h | h | h | h | h | h | h | h | h | h
        | h | h | h | h | h | h | h | h | h | h <;> subst h <;> rfl
    · simp [frameBody] at h
      rcases h with h | h | h <;> subst h <;> rfl
    · rfl
    · rfl

/-- Check of C10 on `sampleEnv`, after its two frames, the buffers starting
black. -/
theorem triangle_rendered_witness :
    (glRun (GLState.initial black black)
        (bootstrap sampleEnv ++ iterations sampleEnv.window 2)).front centroidPixel
      = (1, 1, 1, 1)
    ∧ (glRun (GLState.initial black black)
        (bootstrap sampleEnv ++ iterations sampleEnv.window 2)).front (0, 0) = (0, 0, 0, 1) :=
  ⟨(triangle_rendered sampleEnv
      ⟨rfl, by decide, rfl, by decide, by decide, by decide, by decide, by decide, by decide,
        by decide⟩ black black 2 (by decide) (by decide)).2.1,
   (triangle_rendered sampleEnv
      ⟨rfl, by decide, rfl, by decide, by decide, by decide, by decide, by decide, by decide,
        by decide⟩ black black 2 (by decide) (by decide)).2.2.2.2.1 (0, 0) (0, 0, 0, 1)
      ((triangle_rendered sampleEnv
        ⟨rfl, by decide, rfl, by decide, by decide, by decide, by decide, by decide, by decide,
          by decide⟩ black black 2 (by decide) (by decide)).2.2.2.2.2.1) rfl rfl⟩

end Tutorial
